import Mathlib

/-!
Verification of the vibecast recommendation-assembly pipeline
(src/personalized.go, final revision) against its specification.

The Go code is shallowly embedded: Spotify data records become Lean
structures, Go maps used as sets (map[string]bool with only true values)
become duplicate-free lists of keys, map[string]int counters become
prepend-shadowing association lists, float32 audio features become
rationals (decimal constants written with mkRat), and every network
call of the spotify client is an oracle parameter (SpotifyOracle) whose
invocations are logged in a call trace.
-/

namespace Vibecast

-- Equality of oracle results is decidable, so concrete runs evaluate in proofs.
deriving instance DecidableEq for Except

/-- Artist record: the fields of spotify.SimpleArtist the program reads. -/
structure Artist where
  id : String
  name : String := ""
deriving DecidableEq, Repr

/-- Track record: the fields of spotify.FullTrack the program reads. -/
structure Track where
  id : String
  name : String := ""
  artists : List Artist := []
deriving DecidableEq, Repr

/-- Playlist record: the fields of spotify.SimplePlaylist the program reads. -/
structure Playlist where
  id : String
  name : String := ""
deriving DecidableEq, Repr

/-- Audio-feature vector (spotify.AudioFeatures), float32 fields modelled
as rationals. -/
structure AudioFeatures where
  Energy : ℚ
  Danceability : ℚ
  Valence : ℚ
  Tempo : ℚ
  Acousticness : ℚ
  Instrumentalness : ℚ
deriving DecidableEq, Repr

/-- AudioFeatureThresholds from personalized.go; a Go struct literal leaves
omitted fields at their zero value, so every field defaults to 0. -/
structure AudioFeatureThresholds where
  MinEnergy : ℚ := 0
  MaxEnergy : ℚ := 0
  MinDanceability : ℚ := 0
  MaxDanceability : ℚ := 0
  MinValence : ℚ := 0
  MaxValence : ℚ := 0
  MinTempo : ℚ := 0
  MaxTempo : ℚ := 0
  MinAcousticness : ℚ := 0
  MaxAcousticness : ℚ := 0
  MinInstrumentalness : ℚ := 0
  MaxInstrumentalness : ℚ := 0
deriving DecidableEq, Repr

/-- GetMoodThresholds from personalized.go (lines 1079-1145); the Go switch
is written as the equivalent chain of equality tests. -/
def GetMoodThresholds (mood : String) : AudioFeatureThresholds :=
  if mood = "energetic" then
    { MinEnergy := mkRat 7 10, MaxEnergy := 1,
      MinDanceability := mkRat 6 10, MaxDanceability := 1,
      MinValence := mkRat 5 10, MaxValence := 1,
      MinTempo := 120, MaxTempo := 300,
      MaxAcousticness := mkRat 4 10, MaxInstrumentalness := mkRat 3 10 }
  else if mood = "relaxed" then
    { MinEnergy := 0, MaxEnergy := mkRat 5 10,
      MinDanceability := 0, MaxDanceability := mkRat 6 10,
      MinValence := 0, MaxValence := mkRat 7 10,
      MinTempo := 0, MaxTempo := 110,
      MinAcousticness := mkRat 4 10, MaxInstrumentalness := 1 }
  else if mood = "intense" then
    { MinEnergy := mkRat 8 10, MaxEnergy := 1,
      MinDanceability := 0, MaxDanceability := 1,
      MinValence := 0, MaxValence := mkRat 5 10,
      MinTempo := 100, MaxTempo := 300,
      MaxAcousticness := mkRat 3 10, MaxInstrumentalness := mkRat 5 10 }
  else if mood = "thoughtful" then
    { MinEnergy := 0, MaxEnergy := mkRat 6 10,
      MinDanceability := 0, MaxDanceability := mkRat 5 10,
      MinValence := 0, MaxValence := mkRat 6 10,
      MinTempo := 0, MaxTempo := 120,
      MinAcousticness := mkRat 3 10, MinInstrumentalness := mkRat 2 10 }
  else
    { MinEnergy := 0, MaxEnergy := 1,
      MinDanceability := 0, MaxDanceability := 1,
      MinValence := 0, MaxValence := 1,
      MinTempo := 0, MaxTempo := 300 }

/-- matchesMood from personalized.go (lines 1232-1282): the sequence of
early-return checks, one if per check, in source order. -/
def matchesMood (features : AudioFeatures) (thresholds : AudioFeatureThresholds) : Bool :=
  if thresholds.MinEnergy > 0 ∧ features.Energy < thresholds.MinEnergy then false
  else if thresholds.MaxEnergy < 1 ∧ features.Energy > thresholds.MaxEnergy then false
  else if thresholds.MinDanceability > 0 ∧ features.Danceability < thresholds.MinDanceability then false
  else if thresholds.MaxDanceability < 1 ∧ features.Danceability > thresholds.MaxDanceability then false
  else if thresholds.MinValence > 0 ∧ features.Valence < thresholds.MinValence then false
  else if thresholds.MaxValence < 1 ∧ features.Valence > thresholds.MaxValence then false
  else if thresholds.MinTempo > 0 ∧ features.Tempo < thresholds.MinTempo then false
  else if thresholds.MaxTempo < 300 ∧ features.Tempo > thresholds.MaxTempo then false
  else if thresholds.MinAcousticness > 0 ∧ features.Acousticness < thresholds.MinAcousticness then false
  else if thresholds.MaxAcousticness < 1 ∧ features.Acousticness > thresholds.MaxAcousticness then false
  else if thresholds.MinInstrumentalness > 0 ∧ features.Instrumentalness < thresholds.MinInstrumentalness then false
  else if thresholds.MaxInstrumentalness < 1 ∧ features.Instrumentalness > thresholds.MaxInstrumentalness then false
  else true

/-- GetMoodMatchingGenres from personalized.go (lines 1148-1177). -/
def GetMoodMatchingGenres (mood : String) : List String :=
  match mood with
  | "energetic" =>
    ["dance", "edm", "electro", "house", "techno", "trance", "dubstep",
     "pop", "power-pop", "dance-pop", "party", "club",
     "disco", "funk", "happy", "upbeat", "workout", "gym"]
  | "relaxed" =>
    ["chill", "acoustic", "ambient", "lofi", "sleep", "study",
     "jazz", "soul", "r-n-b", "folk", "indie-folk",
     "meditation", "calm", "piano", "classical", "soft-rock"]
  | "intense" =>
    ["rock", "metal", "hard-rock", "heavy-metal", "punk", "hardcore",
     "alt-rock", "alternative", "grunge", "industrial",
     "emo", "post-hardcore", "thrash", "death-metal"]
  | "thoughtful" =>
    ["indie", "indie-pop", "indie-rock", "alternative", "folk",
     "singer-songwriter", "ambient", "post-rock", "experimental",
     "classical", "instrumental", "soundtrack", "piano", "sad"]
  | _ => ["pop", "rock", "indie", "alternative"]

/-- getMoodPlaylistSearchQueries from personalized.go (lines 1340-1377). -/
def getMoodPlaylistSearchQueries (mood : String) : List String :=
  match mood with
  | "energetic" =>
    ["workout energy", "party upbeat", "dance energy", "gym motivation", "high energy"]
  | "relaxed" =>
    ["chill relax", "calm acoustic", "sleep peaceful", "meditation calm", "lofi chill"]
  | "intense" =>
    ["intense rock", "metal hardcore", "workout intense", "running intense", "epic intense"]
  | "thoughtful" =>
    ["thoughtful indie", "ambient calm", "focus concentration", "study peaceful", "introspective mood"]
  | _ => ["mood " ++ mood]

/-- Genre seed lists used in stage 5 of GetPersonalizedRecommendations
(personalized.go lines 655-666). -/
def moodGenreSeeds (mood : String) : List String :=
  match mood with
  | "energetic" => ["pop", "dance", "edm", "party", "house"]
  | "relaxed" => ["chill", "acoustic", "ambient", "jazz", "lofi"]
  | "intense" => ["rock", "metal", "punk", "hard-rock", "alt-rock"]
  | "thoughtful" => ["indie", "folk", "classical", "singer-songwriter", "ambient"]
  | _ => ["pop", "indie", "alternative", "rock", "electronic"]

/-- Search query used by GetSearchBasedRecommendations
(personalized.go lines 757-768). -/
def searchQueryForMood (mood : String) : String :=
  match mood with
  | "energetic" => "pop dance"
  | "relaxed" => "chill acoustic"
  | "intense" => "rock metal"
  | "thoughtful" => "indie ambient"
  | _ => "pop"

/-! ### Go maps used as sets and counters -/

/-- Go map[string]bool used as a set (the program only ever stores true):
list of keys, insertion keeps the key list duplicate-free. Used where the
program also iterates over or measures the map. -/
def insertKey (m : List String) (k : String) : List String :=
  if m.contains k then m else m ++ [k]

/-- Go map[string]int modelled as an association list; a new binding is
prepended and shadows older ones, lookupInt reads the first live binding
(missing keys read as the Go zero value 0). -/
def lookupInt (m : List (String × Int)) (k : String) : Int :=
  match m.find? (fun p => p.1 == k) with
  | some p => p.2
  | none => 0

/-- Bind a key of a map[string]int (prepend-shadowing association list). -/
def setInt (m : List (String × Int)) (k : String) (v : Int) : List (String × Int) :=
  (k, v) :: m

/-! ### Liked-songs filters and the per-artist cap -/

/-- FilterTracksByLikedSongs from personalized.go (lines 1041-1060). -/
def FilterTracksByLikedSongs (tracks : List Track) (likedTracks : List String) : List Track :=
  if likedTracks.length = 0 then tracks
  else tracks.filter (fun t => likedTracks.contains t.id)

/-- FilterTracksByLikedArtists from personalized.go (lines 858-886). -/
def FilterTracksByLikedArtists (tracks : List Track) (likedArtists : List String) : List Track :=
  if likedArtists.length = 0 then tracks
  else tracks.filter (fun t => t.artists.any (fun a => likedArtists.contains a.id))

/-- Mutable state of LimitSongsPerArtist: artistSongCount, processedTrackIDs
(a map[string]bool queried only for membership, so kept as a key list) and
the accumulated result list. -/
structure LimitState where
  counts : List (String × Int)
  processed : List String
  acc : List Track
deriving DecidableEq, Repr

/-- First pass of LimitSongsPerArtist (lines 904-909): count songs per artist
(one increment per credited-artist occurrence). -/
def firstPass (tracks : List Track) : List (String × Int) :=
  tracks.foldl
    (fun m t => t.artists.foldl (fun m2 a => setInt m2 a.id (lookupInt m2 a.id + 1)) m)
    []

/-- One iteration of the second pass of LimitSongsPerArtist (lines 915-946). -/
def limitStep (maxSongsPerArtist : Int) (st : LimitState) (t : Track) : LimitState :=
  if st.processed.contains t.id then st
  else
    match t.artists.find? (fun a => decide (lookupInt st.counts a.id > maxSongsPerArtist)) with
    | some a =>
      { st with counts := setInt st.counts a.id (lookupInt st.counts a.id - 1) }
    | none =>
      { counts := t.artists.foldl (fun m a => setInt m a.id (lookupInt m a.id - 1)) st.counts
        processed := t.id :: st.processed
        acc := st.acc ++ [t] }

/-- LimitSongsPerArtist from personalized.go (lines 889-952). -/
def LimitSongsPerArtist (tracks : List Track) (maxSongsPerArtist : Int) : List Track :=
  if tracks.length = 0 ∨ maxSongsPerArtist ≤ 0 then tracks
  else (tracks.foldl (limitStep maxSongsPerArtist)
          { counts := firstPass tracks, processed := [], acc := [] }).acc

/-! ### The capability client as an oracle with a call trace -/

/-- Seeds passed to GetRecommendations. -/
structure Seeds where
  Artists : List String
  Tracks : List String
  Genres : List String
deriving DecidableEq, Repr

/-- One spotify-client call made by the pipeline, with its arguments. -/
inductive Call where
  | savedTracksPage (limit offset : Nat)
  | topArtistsCall
  | topTracksCall
  | getTracksCall (ids : List String)
  | audioFeaturesCall (ids : List String)
  | getArtistCall (id : String)
  | searchPlaylistsCall (query : String) (limit : Nat)
  | playlistItemsCall (pid : String)
  | recommendationsCall (seeds : Seeds) (limit : Nat)
  | searchTracksCall (query : String) (limit : Nat)
deriving DecidableEq, Repr

/-- Responses of the spotify client, one field per endpoint the program
uses. savedPage serves the paging loop of GetUserLikedTracks and
savedPageArtists the (temporally later) paging loop of GetUserLikedArtists:
the same endpoint, but each function performs its own sequence of HTTP
requests, so each gets its own response schedule. -/
structure SpotifyOracle where
  savedPage : Nat → Nat → Except String (List Track)
  savedPageArtists : Nat → Nat → Except String (List Track)
  topArtistsResp : Except String (List Artist)
  topTracksResp : Except String (List Track)
  getTracksResp : List String → Except String (List (Option Track))
  audioFeaturesResp : List String → Except String (List (Option AudioFeatures))
  artistGenresResp : String → Except String (List String)
  searchPlaylistsResp : String → Except String (List Playlist)
  playlistItemsResp : String → Except String (List (Option Track))
  recommendationsResp : Seeds → Except String (List Track)
  searchTracksResp : String → Except String (List Track)

/-- The offsets the saved-tracks paging loops can visit: 0, 50, ..., 950.
The loop body increments offset by the page size 50 and exits once
offset reaches 1000, so it visits at most these 20 offsets in order;
exhausting this list is exactly the Go cap check offset >= 1000. -/
def pagingOffsets : List Nat := (List.range 20).map (fun i => 50 * i)

/-- Paging loop of GetUserLikedTracks (personalized.go lines 999-1030):
page size 50, stop on a short or empty page or once the offset list
(the 1000-track cap) is exhausted. -/
def likedLoop (fetch : Nat → Nat → Except String (List Track)) :
    List Nat → List String → List Call →
    Except String (List String) × List Call
  | [], acc, tr => (.ok acc, tr)
  | offset :: rest, acc, tr =>
    match fetch 50 offset with
    | .error e => (.error ("failed to get user's liked songs: " ++ e),
                   tr ++ [.savedTracksPage 50 offset])
    | .ok page =>
      let tr2 := tr ++ [.savedTracksPage 50 offset]
      if page.length = 0 then (.ok acc, tr2)
      else
        let acc2 := page.foldl (fun a t => insertKey a t.id) acc
        if page.length < 50 then (.ok acc2, tr2)
        else likedLoop fetch rest acc2 tr2

/-- GetUserLikedTracks from personalized.go (lines 980-1038). -/
def GetUserLikedTracks (or : SpotifyOracle) : Except String (List String) × List Call :=
  let r := likedLoop or.savedPage pagingOffsets [] []
  match r.1 with
  | .error e => (.error e, r.2)
  | .ok likedTracks =>
    if likedTracks.length = 0 then
      (.error "no liked songs found in your library", r.2)
    else (.ok likedTracks, r.2)

/-- Paging loop of GetUserLikedArtists (personalized.go lines 813-847):
identical control flow, accumulating the credited artists of each track. -/
def likedArtistsLoop (fetch : Nat → Nat → Except String (List Track)) :
    List Nat → List String → List Call →
    Except String (List String) × List Call
  | [], acc, tr => (.ok acc, tr)
  | offset :: rest, acc, tr =>
    match fetch 50 offset with
    | .error e => (.error ("failed to get user's liked songs: " ++ e),
                   tr ++ [.savedTracksPage 50 offset])
    | .ok page =>
      let tr2 := tr ++ [.savedTracksPage 50 offset]
      if page.length = 0 then (.ok acc, tr2)
      else
        let acc2 := page.foldl
          (fun a t => t.artists.foldl (fun a2 ar => insertKey a2 ar.id) a) acc
        if page.length < 50 then (.ok acc2, tr2)
        else likedArtistsLoop fetch rest acc2 tr2

/-- GetUserLikedArtists from personalized.go (lines 794-855). -/
def GetUserLikedArtists (or : SpotifyOracle) : Except String (List String) × List Call :=
  let r := likedArtistsLoop or.savedPageArtists pagingOffsets [] []
  match r.1 with
  | .error e => (.error e, r.2)
  | .ok likedArtists =>
    if likedArtists.length = 0 then
      (.error "no artists found in your liked songs", r.2)
    else (.ok likedArtists, r.2)

/-- GetUserTopArtists from personalized.go (lines 270-296), as a function of
the response of CurrentUsersTopArtists. -/
def GetUserTopArtists (resp : Except String (List Artist)) : Except String (List Artist) :=
  match resp with
  | .error e => .error ("failed to get user's top artists: " ++ e)
  | .ok l => if l.length = 0 then .error "no top artists found for user" else .ok l

/-- GetUserTopTracks from personalized.go (lines 298-324), as a function of
the response of CurrentUsersTopTracks. -/
def GetUserTopTracks (resp : Except String (List Track)) : Except String (List Track) :=
  match resp with
  | .error e => .error ("failed to get user's top tracks: " ++ e)
  | .ok l => if l.length = 0 then .error "no top tracks found for user" else .ok l

/-- Chunking worker, structurally recursive on a fuel that bounds the
number of chunks; each step consumes max n 1 ≥ 1 elements, so fuel =
length of the list always suffices. -/
def chunksOfFuel (n : Nat) : Nat → List α → List (List α)
  | _, [] => []
  | 0, l => [l]
  | fuel + 1, x :: xs =>
    (x :: xs).take (max n 1) :: chunksOfFuel n fuel ((x :: xs).drop (max n 1))

/-- Split a list into consecutive chunks; called with n = 20 (GetTracks) and
n = 100 (GetAudioFeatures). -/
def chunksOf (n : Nat) (l : List α) : List (List α) :=
  chunksOfFuel n l.length l

/-- Batched GetTracks pattern (personalized.go lines 384-414 and 692-708):
fetch ids in chunks of 20, skip failed batches, drop nil tracks. -/
def batchFetchTracks (or : SpotifyOracle) (ids : List String) : List Track × List Call :=
  (chunksOf 20 ids).foldl
    (fun (acc : List Track × List Call) batch =>
      match or.getTracksResp batch with
      | .error _ => (acc.1, acc.2 ++ [.getTracksCall batch])
      | .ok ts =>
        if 0 < ts.length then (acc.1 ++ ts.filterMap id, acc.2 ++ [.getTracksCall batch])
        else (acc.1, acc.2 ++ [.getTracksCall batch]))
    ([], [])

/-- AnalyzeAudioFeaturesForMood from personalized.go (lines 1180-1228):
5-id probe batch, then batches of 100, skipping failed batches. -/
def AnalyzeAudioFeaturesForMood (or : SpotifyOracle) (trackIDs : List String)
    (mood : String) : Except String (List String) × List Call :=
  if trackIDs.length = 0 then (.error "no tracks to analyze", [])
  else
    let thresholds := GetMoodThresholds mood
    let testBatch := trackIDs.take (min 5 trackIDs.length)
    match or.audioFeaturesResp testBatch with
    | .error e => (.error ("cannot access audio features API: " ++ e),
                   [.audioFeaturesCall testBatch])
    | .ok _ =>
      let r := (chunksOf 100 trackIDs).foldl
        (fun (acc : List String × List Call) batch =>
          match or.audioFeaturesResp batch with
          | .error _ => (acc.1, acc.2 ++ [.audioFeaturesCall batch])
          | .ok feats =>
            (acc.1 ++ (batch.zip feats).filterMap
               (fun p => match p.2 with
                 | none => none
                 | some f => if matchesMood f thresholds then some p.1 else none),
             acc.2 ++ [.audioFeaturesCall batch]))
        ([], [])
      (.ok r.1, [.audioFeaturesCall testBatch] ++ r.2)

/-! ### The candidate pool -/

/-- allTracks plus the seenTrackIDs map of GetPersonalizedRecommendations
(queried only for membership, so kept as a key list). -/
structure PoolState where
  allTracks : List Track
  seen : List String
deriving DecidableEq, Repr

/-- Append a track and mark it seen. -/
def addTrack (st : PoolState) (t : Track) : PoolState :=
  { allTracks := st.allTracks ++ [t], seen := t.id :: st.seen }

/-- addUniqueTracks closure of GetPersonalizedRecommendations
(lines 363-372): admit only unseen tracks that are liked. -/
def addUniqueTracks (likedTracks : List String) (st : PoolState)
    (tracks : List Track) : PoolState :=
  tracks.foldl
    (fun s t => if !(s.seen.contains t.id) && likedTracks.contains t.id then addTrack s t else s)
    st

/-- Stage 2 admission (lines 438-446): add unseen audio-feature-matching
liked songs, with no extra liked check at this point. -/
def stage1Add (matching : List String) (userLikedSongs : List Track)
    (st : PoolState) : PoolState :=
  userLikedSongs.foldl
    (fun s t => if matching.contains t.id && !(s.seen.contains t.id) then addTrack s t else s)
    st

/-! ### Stage 3: genre matching -/

/-- Does one artist genre match the mood's (lowered) genre keywords, by
equality or substring (lines 497-517)? -/
def listContainsSub (sub : List Char) : List Char → Bool
  | [] => sub.isPrefixOf ([] : List Char)
  | c :: t => sub.isPrefixOf (c :: t) || listContainsSub sub t

/-- strings.Contains. -/
def strContainsSubstr (s sub : String) : Bool :=
  listContainsSub sub.toList s.toList

/-- Genre-list test of the inner loop of stage 3: some artist genre is in
the mood genre set, or contains one of its keywords. -/
def artistGenresMatch (moodGenresLower : List String) (genres : List String) : Bool :=
  genres.any (fun g =>
    moodGenresLower.contains g.toLower ||
    moodGenresLower.any (fun m => strContainsSubstr g.toLower m))

/-- The artistGenreCache map (prepend-shadowing association list). -/
def GenreCache := List (String × List String)

/-- Cache lookup for artistGenreCache. -/
def lookupGenres (cache : GenreCache) (k : String) : Option (List String) :=
  match cache.find? (fun p => p.1 == k) with
  | some p => some p.2
  | none => none

/-- Artist loop of stage 3 (lines 478-522): per-artist genre lookup with
cache, stopping at the first matching artist; failed lookups are skipped
and not cached. -/
def genreArtistLoop (or : SpotifyOracle) (moodGenresLower : List String) :
    List Artist → GenreCache → List Call → (Bool × GenreCache × List Call)
  | [], cache, tr => (false, cache, tr)
  | a :: rest, cache, tr =>
    match lookupGenres cache a.id with
    | some gs =>
      if artistGenresMatch moodGenresLower gs then (true, cache, tr)
      else genreArtistLoop or moodGenresLower rest cache tr
    | none =>
      match or.artistGenresResp a.id with
      | .error _ => genreArtistLoop or moodGenresLower rest cache
          (tr ++ [.getArtistCall a.id])
      | .ok gs =>
        let cache2 : GenreCache := (a.id, gs) :: cache
        if artistGenresMatch moodGenresLower gs then (true, cache2, tr ++ [.getArtistCall a.id])
        else genreArtistLoop or moodGenresLower rest cache2 (tr ++ [.getArtistCall a.id])

/-- Track loop of stage 3 (lines 469-532): skip seen tracks, admit genre
matches, break once the pool holds 100 tracks. -/
def genreTrackLoop (or : SpotifyOracle) (moodGenresLower : List String) :
    List Track → PoolState → GenreCache → List Call → (PoolState × GenreCache × List Call)
  | [], st, cache, tr => (st, cache, tr)
  | t :: rest, st, cache, tr =>
    if st.seen.contains t.id then genreTrackLoop or moodGenresLower rest st cache tr
    else
      match genreArtistLoop or moodGenresLower t.artists cache tr with
      | (matched, cache2, tr2) =>
        if matched then
          let st2 := addTrack st t
          if 100 ≤ st2.allTracks.length then (st2, cache2, tr2)
          else genreTrackLoop or moodGenresLower rest st2 cache2 tr2
        else genreTrackLoop or moodGenresLower rest st cache2 tr2

/-! ### Stage 4: mood-playlist mining -/

/-- Inner playlist loop of stage 4 (lines 560-580): fetch each playlist's
items, break once 200 tracks are mined. -/
def minePlaylistLoop (or : SpotifyOracle) :
    List Playlist → List Track → List Call → (List Track × List Call)
  | [], acc, tr => (acc, tr)
  | p :: rest, acc, tr =>
    if 200 ≤ acc.length then (acc, tr)
    else
      match or.playlistItemsResp p.id with
      | .error _ => minePlaylistLoop or rest acc (tr ++ [.playlistItemsCall p.id])
      | .ok items => minePlaylistLoop or rest (acc ++ items.filterMap id)
          (tr ++ [.playlistItemsCall p.id])

/-- Query loop of stage 4 (lines 547-581): one playlist search (limit 5)
per mood query, break once 200 tracks are mined. -/
def minePlaylistsQueries (or : SpotifyOracle) :
    List String → List Track → List Call → (List Track × List Call)
  | [], acc, tr => (acc, tr)
  | q :: rest, acc, tr =>
    if 200 ≤ acc.length then (acc, tr)
    else
      match or.searchPlaylistsResp q with
      | .error _ => minePlaylistsQueries or rest acc (tr ++ [.searchPlaylistsCall q 5])
      | .ok pls =>
        match minePlaylistLoop or pls acc (tr ++ [.searchPlaylistsCall q 5]) with
        | (acc2, tr2) => minePlaylistsQueries or rest acc2 tr2

/-- Admission loop of stage 4 (lines 586-595): admit mined tracks that are
liked and unseen, break once the pool holds 100 tracks. -/
def admitMinedLoop (likedTracks : List String) :
    List Track → PoolState → PoolState
  | [], st => st
  | t :: rest, st =>
    if likedTracks.contains t.id && !(st.seen.contains t.id) then
      let st2 := addTrack st t
      if 100 ≤ st2.allTracks.length then st2
      else admitMinedLoop likedTracks rest st2
    else admitMinedLoop likedTracks rest st

/-! ### Stage 5: catalog recommendations -/

/-- Seed construction of stage 5 (lines 600-660): up to 2 liked top
artists, liked top tracks up to a total of 5, topped up with mood genre
seeds. -/
def stage4Seeds (mood : String) (topArtists : List Artist)
    (topTracks : List Track) (likedArtists likedTracks : List String) : Seeds :=
  let seedArtists :=
    if 0 < topArtists.length && 0 < likedArtists.length then
      ((topArtists.take 2).filter (fun a => likedArtists.contains a.id)).map (fun a => a.id)
    else []
  let seedTracks :=
    if 0 < topTracks.length && seedArtists.length < 5 then
      ((topTracks.take (5 - seedArtists.length)).filter
        (fun t => likedTracks.contains t.id)).map (fun t => t.id)
    else []
  let seedGenres :=
    if seedArtists.length + seedTracks.length < 5 then
      (moodGenreSeeds mood).take (min (5 - seedArtists.length - seedTracks.length) 5)
    else []
  { Artists := seedArtists, Tracks := seedTracks, Genres := seedGenres }

/-- Request-and-admit part of stage 5 (lines 662-714): request
recommendations (limit 100), fetch full tracks in batches of 20 and admit
them through addUniqueTracks. -/
def stage4Recommendations (or : SpotifyOracle) (mood : String)
    (topArtists : List Artist) (topTracks : List Track)
    (likedArtists likedTracks : List String) (st : PoolState) :
    PoolState × List Call :=
  let seeds := stage4Seeds mood topArtists topTracks likedArtists likedTracks
  match or.recommendationsResp seeds with
  | .error _ => (st, [.recommendationsCall seeds 100])
  | .ok recs =>
    if 0 < recs.length then
      let recIDs := recs.map (fun t => t.id)
      let fetched := batchFetchTracks or recIDs
      (addUniqueTracks likedTracks st fetched.1, .recommendationsCall seeds 100 :: fetched.2)
    else (st, [.recommendationsCall seeds 100])

/-! ### The pipeline -/

/-- Everything GetPersonalizedRecommendations computes before the first
pool-size guard: liked library, seed sources, fetched liked songs and the
audio-feature stage (lines 332-449). -/
structure PrelimResult where
  likedTracks : List String
  likedArtists : List String
  topArtists : List Artist
  topTracks : List Track
  userLikedSongs : List Track
  pool : PoolState

/-- The pipeline's treatment of a failed seed source (lines 340-357 and
420-434): log and proceed with an empty collection. -/
def orEmpty : Except String (List α) → List α
  | .ok l => l
  | .error _ => []

/-- Prefix of GetPersonalizedRecommendations up to and including the
audio-feature stage (lines 327-449). -/
def pipelinePrelim (or : SpotifyOracle) (mood : String) :
    Except String PrelimResult × List Call :=
  let glt := GetUserLikedTracks or
  match glt.1 with
  | .error e => (.error ("failed to get liked songs: " ++ e), glt.2)
  | .ok likedTracks =>
    if likedTracks.length = 0 then
      (.error "no liked songs found - please like some songs on Spotify first", glt.2)
    else
      let la := GetUserLikedArtists or
      let likedArtists := orEmpty la.1
      let topArtists := orEmpty (GetUserTopArtists or.topArtistsResp)
      let topTracks := orEmpty (GetUserTopTracks or.topTracksResp)
      let uls := batchFetchTracks or likedTracks
      let af := AnalyzeAudioFeaturesForMood or likedTracks mood
      let st0 : PoolState := { allTracks := [], seen := [] }
      let st1 := match af.1 with
        | .error _ => st0
        | .ok matching => stage1Add matching uls.1 st0
      (.ok { likedTracks := likedTracks, likedArtists := likedArtists,
             topArtists := topArtists, topTracks := topTracks,
             userLikedSongs := uls.1, pool := st1 },
       glt.2 ++ la.2 ++ [.topArtistsCall, .topTracksCall] ++ uls.2 ++ af.2)

/-- Stage 3 wrapper: run genre matching over the liked songs. -/
def stage2Run (or : SpotifyOracle) (mood : String) (p : PrelimResult) :
    PoolState × GenreCache × List Call :=
  genreTrackLoop or ((GetMoodMatchingGenres mood).map String.toLower)
    p.userLikedSongs p.pool [] []

/-- Stage 4 wrapper: mine mood playlists and admit liked, unseen tracks. -/
def stage3Run (or : SpotifyOracle) (mood : String) (likedTracks : List String)
    (st : PoolState) : PoolState × List Call :=
  let mined := minePlaylistsQueries or (getMoodPlaylistSearchQueries mood) [] []
  (admitMinedLoop likedTracks mined.1 st, mined.2)

/-- Pool-size guard before the genre stage (line 452). -/
def afterStage2 (or : SpotifyOracle) (mood : String) (p : PrelimResult) :
    PoolState × List Call :=
  if p.pool.allTracks.length < 50 then
    ((stage2Run or mood p).1, (stage2Run or mood p).2.2)
  else (p.pool, [])

/-- Pool-size guard before the playlist-mining stage (line 538). -/
def afterStage3 (or : SpotifyOracle) (mood : String) (p : PrelimResult)
    (st : PoolState) : PoolState × List Call :=
  if st.allTracks.length < 50 then stage3Run or mood p.likedTracks st
  else (st, [])

/-- Pool-size guard before the catalog-recommendation stage (line 601). -/
def afterStage4 (or : SpotifyOracle) (mood : String) (p : PrelimResult)
    (st : PoolState) : PoolState × List Call :=
  if st.allTracks.length < 50 then
    stage4Recommendations or mood p.topArtists p.topTracks p.likedArtists p.likedTracks st
  else (st, [])

/-- GetPersonalizedRecommendations from personalized.go (lines 327-743).
The rand.Shuffle call (time-seeded, lines 730-733) is nondeterministic and
is modelled by the shuffle parameter; theorems constrain it to be a
permutation. -/
def GetPersonalizedRecommendations (or : SpotifyOracle) (mood : String)
    (shuffle : List Track → List Track) : Except String (List Track) × List Call :=
  let pr := pipelinePrelim or mood
  match pr.1 with
  | .error e => (.error e, pr.2)
  | .ok p =>
    let s2 := afterStage2 or mood p
    let s3 := afterStage3 or mood p s2.1
    let s4 := afterStage4 or mood p s3.1
    let filteredTracks := FilterTracksByLikedSongs s4.1.allTracks p.likedTracks
    if filteredTracks.length = 0 then
      (.error "no tracks found in your liked songs that match the criteria - please like more songs on Spotify",
       pr.2 ++ s2.2 ++ s3.2 ++ s4.2)
    else
      let limited := LimitSongsPerArtist filteredTracks 5
      let shuffled := shuffle limited
      let final := if 50 < shuffled.length then shuffled.take 50 else shuffled
      (.ok final, pr.2 ++ s2.2 ++ s3.2 ++ s4.2)

/-- GetSearchBasedRecommendations from personalized.go (lines 746-791):
a single track search with limit 20, results returned unfiltered. -/
def GetSearchBasedRecommendations (or : SpotifyOracle) (mood : String) :
    Except String (List Track) × List Call :=
  let q := searchQueryForMood mood
  match or.searchTracksResp q with
  | .error e => (.error e, [.searchTracksCall q 20])
  | .ok ts =>
    if ts.length = 0 then (.error ("no tracks found for mood: " ++ mood), [.searchTracksCall q 20])
    else (.ok ts, [.searchTracksCall q 20])

/-! ### Call classifiers and stage projections -/

/-- Calls made only by the genre stage. -/
def isStage2Call : Call → Bool
  | .getArtistCall _ => true
  | _ => false

/-- Calls made only by the mood-playlist-mining stage. -/
def isStage3Call : Call → Bool
  | .searchPlaylistsCall _ _ => true
  | .playlistItemsCall _ => true
  | _ => false

/-- The catalog-recommendation request of the final fallback stage. -/
def isStage4Call : Call → Bool
  | .recommendationsCall _ _ => true
  | _ => false

/-- The plain track search performed only by GetSearchBasedRecommendations. -/
def isSearchTracksCall : Call → Bool
  | .searchTracksCall _ _ => true
  | _ => false

/-- Pool size after the audio-feature stage (0 when the run aborted). -/
def pool1Len (or : SpotifyOracle) (mood : String) : Nat :=
  match (pipelinePrelim or mood).1 with
  | .ok p => p.pool.allTracks.length
  | .error _ => 0

/-- Pool size after the genre stage. -/
def pool2Len (or : SpotifyOracle) (mood : String) : Nat :=
  match (pipelinePrelim or mood).1 with
  | .ok p => ((afterStage2 or mood p).1).allTracks.length
  | .error _ => 0

/-- Pool size after the mood-playlist-mining stage. -/
def pool3Len (or : SpotifyOracle) (mood : String) : Nat :=
  match (pipelinePrelim or mood).1 with
  | .ok p => ((afterStage3 or mood p (afterStage2 or mood p).1).1).allTracks.length
  | .error _ => 0

/-- Calls the genre stage contributed to the run. -/
def stage2Trace (or : SpotifyOracle) (mood : String) : List Call :=
  match (pipelinePrelim or mood).1 with
  | .ok p => (afterStage2 or mood p).2
  | .error _ => []

/-- Calls the mood-playlist-mining stage contributed to the run. -/
def stage3Trace (or : SpotifyOracle) (mood : String) : List Call :=
  match (pipelinePrelim or mood).1 with
  | .ok p => (afterStage3 or mood p (afterStage2 or mood p).1).2
  | .error _ => []

/-! ### Spec-side characterization of the saved-tracks paging (section 4.1)

These definitions express the specification's description of
buildLikedLibrary: page i is fetched at offset 50 * i, pages are
accumulated in order, and the run stops with the first short page or
after 20 pages. They are compared with GetUserLikedTracks. -/

/-- The tracks of pages j, j+1, ..., j+n-1, concatenated in order. -/
def pagesSeg (pages : Nat → List Track) (j n : Nat) : List Track :=
  ((List.range' j n).map pages).flatten

/-- Accumulate the track IDs of a page into the liked map. -/
def insertAllIDs (acc : List String) (l : List Track) : List String :=
  l.foldl (fun a t => insertKey a t.id) acc

/-- The liked-track map built from the first n pages. -/
def collectLikedIDs (pages : Nat → List Track) (n : Nat) : List String :=
  insertAllIDs [] (pagesSeg pages 0 n)

/-- The saved-tracks calls for pages j, ..., j+n-1: fixed page size 50,
offsets 50*j, 50*(j+1), ... -/
def callsSeg (j n : Nat) : List Call :=
  (List.range' j n).map (fun i => Call.savedTracksPage 50 (50 * i))

/-- The saved-tracks calls of a run that fetched the first n pages. -/
def likedPageCalls (n : Nat) : List Call := callsSeg 0 n

/-- The contract's result: the accumulated id set, or the no-liked-songs
error when it is empty. -/
def mkLikedResult (ids : List String) : Except String (List String) :=
  if ids.length = 0 then .error "no liked songs found in your library"
  else .ok ids

/-! ### Counting tracks per credited artist -/

/-- Does a track credit artist A? -/
def creditsA (A : String) (t : Track) : Bool :=
  t.artists.any (fun a => a.id == A)

/-- Number of tracks in a list crediting artist A. -/
def creditCount (A : String) (l : List Track) : Nat :=
  l.countP (creditsA A)

/-- Occurrences of artist A in a credited-artist list (with multiplicity). -/
def occIn (A : String) (arts : List Artist) : Nat :=
  (arts.filter (fun a => a.id == A)).length

/-- Total occurrences of artist A across a track list. -/
def occList (A : String) (l : List Track) : Nat :=
  (l.map (fun t => occIn A t.artists)).sum

/-! ### Concrete fixtures for witnesses and counterexamples -/

/-- A base oracle whose every response is empty or failing. -/
def oracleBase : SpotifyOracle :=
  { savedPage := fun _l _o => .ok []
    savedPageArtists := fun _l _o => .error "offline"
    topArtistsResp := .error "offline"
    topTracksResp := .error "offline"
    getTracksResp := fun _ => .error "offline"
    audioFeaturesResp := fun _ => .error "offline"
    artistGenresResp := fun _ => .error "offline"
    searchPlaylistsResp := fun _ => .ok []
    playlistItemsResp := fun _ => .ok []
    recommendationsResp := fun _ => .error "offline"
    searchTracksResp := fun _ => .error "offline" }

/-- An audio-feature vector inside the energetic band. -/
def featEnergetic : AudioFeatures :=
  { Energy := mkRat 8 10, Danceability := mkRat 7 10, Valence := mkRat 6 10,
    Tempo := 130, Acousticness := mkRat 1 10, Instrumentalness := 0 }

/-- A vector with zero acousticness and instrumentalness, the only kind the
default band accepts. -/
def fAcZero : AudioFeatures :=
  { Energy := mkRat 5 10, Danceability := mkRat 5 10, Valence := mkRat 5 10,
    Tempo := 100, Acousticness := 0, Instrumentalness := 0 }

/-- An unremarkable mid-range audio-feature vector. -/
def fMid : AudioFeatures :=
  { Energy := mkRat 5 10, Danceability := mkRat 5 10, Valence := mkRat 5 10,
    Tempo := 100, Acousticness := mkRat 5 10, Instrumentalness := mkRat 5 10 }

/-- An energetic vector whose tempo exceeds 300 BPM. -/
def fFastTempo : AudioFeatures :=
  { Energy := mkRat 8 10, Danceability := mkRat 7 10, Valence := mkRat 6 10,
    Tempo := 400, Acousticness := mkRat 1 10, Instrumentalness := mkRat 1 10 }

/-- Artists A and B shared by the twelve-track fixture. -/
def artistA : Artist := { id := "A" }

/-- Second shared artist. -/
def artistB : Artist := { id := "B" }

/-- A track crediting only artist A. -/
def mkTrackA (i : Nat) : Track := { id := "t" ++ toString i, artists := [artistA] }

/-- Six distinct tracks, all by artist A alone. -/
def sixTracksA : List Track := (List.range 6).map mkTrackA

/-- A track crediting artists A and B. -/
def mkTrackAB (i : Nat) : Track := { id := "t" ++ toString i, artists := [artistA, artistB] }

/-- Twelve distinct tracks, each crediting both A and B. -/
def twelveTracksAB : List Track := (List.range 12).map mkTrackAB

/-- Oracle of a user whose liked library is exactly twelveTracksAB, every
one of which matches the energetic audio band; all discovery stages beyond
audio analysis come back empty or failing. -/
def or12 : SpotifyOracle :=
  { oracleBase with
    savedPage := fun _l o => if o = 0 then .ok twelveTracksAB else .ok []
    getTracksResp := fun ids =>
      .ok (ids.map (fun i => some { id := i, artists := [artistA, artistB] }))
    audioFeaturesResp := fun ids => .ok (ids.map (fun _ => some featEnergetic)) }

/-- A single liked track for the membership witness. -/
def trackU1 : Track := { id := "u1", artists := [{ id := "a1" }] }

/-- Oracle of a user with the single liked track trackU1, matching the
energetic band. -/
def or1 : SpotifyOracle :=
  { oracleBase with
    savedPage := fun _l o => if o = 0 then .ok [trackU1] else .ok []
    getTracksResp := fun ids =>
      .ok (ids.map (fun i => some { id := i, artists := [{ id := "a1" }] }))
    audioFeaturesResp := fun ids => .ok (ids.map (fun _ => some featEnergetic)) }

/-- Fifty distinct tracks by fifty distinct artists. -/
def mkTrack50 (i : Nat) : Track :=
  { id := "s" ++ toString i, artists := [{ id := "b" ++ toString i }] }

/-- A full saved-tracks page of 50 distinct tracks. -/
def exTracks50 : List Track := (List.range 50).map mkTrack50

/-- Oracle of a user with exactly 50 liked tracks, all matching the
energetic band, so the audio-feature stage alone fills the pool. -/
def or8 : SpotifyOracle :=
  { oracleBase with
    savedPage := fun _l o => if o = 0 then .ok exTracks50 else .ok []
    getTracksResp := fun ids =>
      .ok (ids.map (fun i => some { id := i, artists := [{ id := "b" ++ i.drop 1 }] }))
    audioFeaturesResp := fun ids => .ok (ids.map (fun _ => some featEnergetic)) }

/-- Oracle of a run in which every candidate-gathering stage comes back
empty or failing, leaving the pool empty. -/
def orEmptyRun : SpotifyOracle :=
  { oracleBase with
    savedPage := fun _l o => if o = 0 then .ok [trackU1] else .ok [] }

/-- Oracle whose track search returns a single hit, for exercising
GetSearchBasedRecommendations. -/
def orSearch : SpotifyOracle :=
  { oracleBase with searchTracksResp := fun _ => .ok [trackU1] }

/-- Page schedule for the paging witness: a full page, then a one-track
page. -/
def pagesC7 (i : Nat) : List Track :=
  if i = 0 then exTracks50 else if i = 1 then [trackU1] else []

/-- Oracle serving pagesC7 on the saved-tracks endpoint. -/
def orC7 : SpotifyOracle :=
  { oracleBase with
    savedPage := fun _l o =>
      .ok (if o = 0 then exTracks50 else if o = 50 then [trackU1] else []) }

/-- Page schedule of an endless full library (every page full). -/
def pagesFull (_i : Nat) : List Track := exTracks50

/-- Oracle serving a full 50-track page at every offset. -/
def orC7full : SpotifyOracle :=
  { oracleBase with savedPage := fun _l _o => .ok exTracks50 }

/-! ## Theorems -/

/-- C9: FilterTracksByLikedSongs and FilterTracksByLikedArtists return the
input unchanged when the liked-membership map is empty: the defense-in-depth
re-filter performs no filtering at all on an empty liked set. -/
theorem c9_empty_map_no_filtering (tracks : List Track) :
    FilterTracksByLikedSongs tracks [] = tracks ∧
    FilterTracksByLikedArtists tracks [] = tracks := by
  constructor <;> rfl

/-- An early-return check: if the check fires the function returns false,
otherwise it continues. -/
theorem iteFalseElse (c : Prop) [Decidable c] (b : Bool) :
    (if c then false else b) = (!(decide c) && b) := by
  by_cases h : c <;> simp [h]

/-- The acceptance predicate is the conjunction of the negations of
matchesMood's twelve early-return checks, in source order. -/
theorem matchesMood_eq_true_iff (f : AudioFeatures) (th : AudioFeatureThresholds) :
    matchesMood f th = true ↔
      (¬(th.MinEnergy > 0 ∧ f.Energy < th.MinEnergy) ∧
       ¬(th.MaxEnergy < 1 ∧ f.Energy > th.MaxEnergy) ∧
       ¬(th.MinDanceability > 0 ∧ f.Danceability < th.MinDanceability) ∧
       ¬(th.MaxDanceability < 1 ∧ f.Danceability > th.MaxDanceability) ∧
       ¬(th.MinValence > 0 ∧ f.Valence < th.MinValence) ∧
       ¬(th.MaxValence < 1 ∧ f.Valence > th.MaxValence) ∧
       ¬(th.MinTempo > 0 ∧ f.Tempo < th.MinTempo) ∧
       ¬(th.MaxTempo < 300 ∧ f.Tempo > th.MaxTempo) ∧
       ¬(th.MinAcousticness > 0 ∧ f.Acousticness < th.MinAcousticness) ∧
       ¬(th.MaxAcousticness < 1 ∧ f.Acousticness > th.MaxAcousticness) ∧
       ¬(th.MinInstrumentalness > 0 ∧ f.Instrumentalness < th.MinInstrumentalness) ∧
       ¬(th.MaxInstrumentalness < 1 ∧ f.Instrumentalness > th.MaxInstrumentalness)) := by
  unfold matchesMood
  simp only [iteFalseElse, Bool.and_eq_true, Bool.not_eq_true', decide_eq_false_iff_not,
    Bool.and_true]

/-- C3 counterexample: the claim says neutral accepts every vector and that
energetic requires tempo ≤ 300; the code rejects a mid-range vector under
neutral (its zero-valued MaxAcousticness acts as the bound acousticness ≤ 0)
and accepts a 400 BPM vector under energetic (MaxTempo = 300 is treated as
unset by the check MaxTempo < 300). -/
theorem c3_counterexample :
    matchesMood fMid (GetMoodThresholds "neutral") = false ∧
    matchesMood fFastTempo (GetMoodThresholds "energetic") = true := by
  constructor <;> decide

/-- C3 (amended): the audio-feature acceptance predicate accepts exactly
these bands: energetic requires energy ≥ 0.7, danceability ≥ 0.6,
valence ≥ 0.5, tempo ≥ 120 (the stored max of 300 is treated as unset),
acousticness ≤ 0.4, instrumentalness ≤ 0.3; relaxed requires energy ≤ 0.5,
danceability ≤ 0.6, valence ≤ 0.7, tempo ≤ 110, acousticness ≥ 0.4 and
also acousticness ≤ 0 (the unset MaxAcousticness zero value is applied as
a bound, so relaxed accepts nothing with positive acousticness); intense
requires energy ≥ 0.8, valence ≤ 0.5, tempo ≥ 100, acousticness ≤ 0.3,
instrumentalness ≤ 0.5; thoughtful requires energy ≤ 0.6,
danceability ≤ 0.5, valence ≤ 0.6, tempo ≤ 120, acousticness ≥ 0.3 and
≤ 0, instrumentalness ≥ 0.2 and ≤ 0; neutral and any unrecognized mood
accept exactly the vectors with acousticness ≤ 0 and instrumentalness ≤ 0. -/
theorem c3_amended_bands (f : AudioFeatures) :
    (matchesMood f (GetMoodThresholds "energetic") = true ↔
      (mkRat 7 10 ≤ f.Energy ∧ mkRat 6 10 ≤ f.Danceability ∧ mkRat 5 10 ≤ f.Valence ∧
       120 ≤ f.Tempo ∧ f.Acousticness ≤ mkRat 4 10 ∧ f.Instrumentalness ≤ mkRat 3 10))
  ∧ (matchesMood f (GetMoodThresholds "relaxed") = true ↔
      (f.Energy ≤ mkRat 5 10 ∧ f.Danceability ≤ mkRat 6 10 ∧ f.Valence ≤ mkRat 7 10 ∧
       f.Tempo ≤ 110 ∧ mkRat 4 10 ≤ f.Acousticness ∧ f.Acousticness ≤ 0))
  ∧ (matchesMood f (GetMoodThresholds "intense") = true ↔
      (mkRat 8 10 ≤ f.Energy ∧ f.Valence ≤ mkRat 5 10 ∧ 100 ≤ f.Tempo ∧
       f.Acousticness ≤ mkRat 3 10 ∧ f.Instrumentalness ≤ mkRat 5 10))
  ∧ (matchesMood f (GetMoodThresholds "thoughtful") = true ↔
      (f.Energy ≤ mkRat 6 10 ∧ f.Danceability ≤ mkRat 5 10 ∧ f.Valence ≤ mkRat 6 10 ∧
       f.Tempo ≤ 120 ∧ mkRat 3 10 ≤ f.Acousticness ∧ f.Acousticness ≤ 0 ∧
       mkRat 2 10 ≤ f.Instrumentalness ∧ f.Instrumentalness ≤ 0))
  ∧ (∀ mood : String, mood ≠ "energetic" → mood ≠ "relaxed" → mood ≠ "intense" →
      mood ≠ "thoughtful" →
      (matchesMood f (GetMoodThresholds mood) = true ↔
        (f.Acousticness ≤ 0 ∧ f.Instrumentalness ≤ 0))) := by
  have hdef : ∀ mood : String, mood ≠ "energetic" → mood ≠ "relaxed" →
      mood ≠ "intense" → mood ≠ "thoughtful" →
      GetMoodThresholds mood = GetMoodThresholds "neutral" := by
    intro mood h1 h2 h3 h4
    simp +decide [GetMoodThresholds, h1, h2, h3, h4]
  refine ⟨?_, ?_, ?_, ?_, ?_⟩
  · rw [matchesMood_eq_true_iff]
    simp +decide [GetMoodThresholds, not_lt]
  · rw [matchesMood_eq_true_iff]
    simp +decide [GetMoodThresholds, not_lt]
  · rw [matchesMood_eq_true_iff]
    simp +decide [GetMoodThresholds, not_lt]
  · rw [matchesMood_eq_true_iff]
    simp +decide [GetMoodThresholds, not_lt]
  · intro mood h1 h2 h3 h4
    rw [hdef mood h1 h2 h3 h4, matchesMood_eq_true_iff]
    simp +decide [GetMoodThresholds, not_lt]

/-- C3 witness: the amended characterization applied to the unrecognized
mood "whimsical" at a vector with zero acousticness and instrumentalness. -/
theorem c3_amended_bands_witness :
    matchesMood fAcZero (GetMoodThresholds "whimsical") = true :=
  ((c3_amended_bands fAcZero).2.2.2.2 "whimsical" (by decide) (by decide)
    (by decide) (by decide)).mpr (by decide)

/-! ### The per-artist cap (C2, C4) -/

/-- Reading back the key just bound. -/
theorem lookupInt_setInt_self (m : List (String × Int)) (k : String) (v : Int) :
    lookupInt (setInt m k v) k = v := by
  simp [lookupInt, setInt, List.find?_cons]

/-- Binding one key leaves the others unchanged. -/
theorem lookupInt_setInt_ne (m : List (String × Int)) (k x : String) (v : Int)
    (h : x ≠ k) : lookupInt (setInt m k v) x = lookupInt m x := by
  have hb : (k == x) = false := by
    simp only [beq_eq_false_iff_ne]
    exact fun hk => h hk.symm
  simp [lookupInt, setInt, List.find?_cons, hb]

/-- Decrementing every credited artist subtracts the occurrence count. -/
theorem lookupInt_foldDec (A : String) (arts : List Artist) :
    ∀ m : List (String × Int),
      lookupInt (arts.foldl (fun m2 a => setInt m2 a.id (lookupInt m2 a.id - 1)) m) A
        = lookupInt m A - (occIn A arts : Int) := by
  induction arts with
  | nil => intro m; simp [occIn]
  | cons a rest ih =>
    intro m
    rw [List.foldl_cons, ih]
    by_cases h : a.id = A
    · have hocc : occIn A (a :: rest) = occIn A rest + 1 := by
        simp [occIn, List.filter_cons, h]
      rw [h, lookupInt_setInt_self, hocc]
      push_cast
      ring
    · have hocc : occIn A (a :: rest) = occIn A rest := by
        simp [occIn, List.filter_cons, h]
      rw [lookupInt_setInt_ne _ _ _ _ (fun hx => h hx.symm), hocc]

/-- Incrementing every credited artist adds the occurrence count. -/
theorem lookupInt_foldInc (A : String) (arts : List Artist) :
    ∀ m : List (String × Int),
      lookupInt (arts.foldl (fun m2 a => setInt m2 a.id (lookupInt m2 a.id + 1)) m) A
        = lookupInt m A + (occIn A arts : Int) := by
  induction arts with
  | nil => intro m; simp [occIn]
  | cons a rest ih =>
    intro m
    rw [List.foldl_cons, ih]
    by_cases h : a.id = A
    · have hocc : occIn A (a :: rest) = occIn A rest + 1 := by
        simp [occIn, List.filter_cons, h]
      rw [h, lookupInt_setInt_self, hocc]
      push_cast
      ring
    · have hocc : occIn A (a :: rest) = occIn A rest := by
        simp [occIn, List.filter_cons, h]
      rw [lookupInt_setInt_ne _ _ _ _ (fun hx => h hx.symm), hocc]

/-- The first pass of LimitSongsPerArtist counts exactly the occurrences of
each artist across the input. -/
theorem firstPass_lookup (A : String) (tracks : List Track) :
    lookupInt (firstPass tracks) A = (occList A tracks : Int) := by
  have aux : ∀ (l : List Track) (m : List (String × Int)),
      lookupInt (l.foldl
        (fun m t => t.artists.foldl
          (fun m2 a => setInt m2 a.id (lookupInt m2 a.id + 1)) m) m) A
        = lookupInt m A + (occList A l : Int) := by
    intro l
    induction l with
    | nil => intro m; simp [occList]
    | cons t rest ih =>
      intro m
      rw [List.foldl_cons, ih, lookupInt_foldInc]
      have : occList A (t :: rest) = occIn A t.artists + occList A rest := by
        simp [occList]
      rw [this]
      push_cast
      ring
  unfold firstPass
  rw [aux]
  simp [lookupInt]

/-- A track crediting A contributes at least one occurrence. -/
theorem occIn_pos_of_credits (A : String) (t : Track)
    (h : creditsA A t = true) : 1 ≤ occIn A t.artists := by
  obtain ⟨a, ha, hid⟩ := List.any_eq_true.mp h
  have : a ∈ t.artists.filter (fun a => a.id == A) := List.mem_filter.mpr ⟨ha, hid⟩
  exact List.length_pos.mpr (fun hnil => by simp [hnil] at this)

/-- A track not crediting A contributes no occurrence. -/
theorem occIn_zero_of_not_credits (A : String) (t : Track)
    (h : creditsA A t = false) : occIn A t.artists = 0 := by
  unfold occIn
  rw [List.length_eq_zero, List.filter_eq_nil_iff]
  intro a ha
  have hall : ∀ x ∈ t.artists, ¬ x.id = A := by
    simpa [creditsA] using h
  simpa using hall a ha

/-- Invariant bound for the second pass: as long as the counter of A
dominates the occurrences of A still to be processed, at most
min(counter, 5) further tracks crediting A are admitted. -/
theorem limitFold_creditCount_le (A : String) (l : List Track) :
    ∀ st : LimitState,
      (occList A l : Int) ≤ lookupInt st.counts A →
      creditCount A ((l.foldl (limitStep 5) st).acc)
        ≤ creditCount A st.acc + min (lookupInt st.counts A).toNat 5 := by
  induction l with
  | nil =>
    intro st _
    simp only [List.foldl_nil]
    exact Nat.le_add_right _ _
  | cons t rest ih =>
    intro st hinv
    have hsplit : occList A (t :: rest) = occIn A t.artists + occList A rest := by
      simp [occList]
    rw [hsplit] at hinv
    rw [List.foldl_cons]
    by_cases hp : st.processed.contains t.id = true
    · have hmem : t.id ∈ st.processed := by simpa using hp
      have hstep : limitStep 5 st t = st := by simp [limitStep, hmem]
      rw [hstep]
      exact ih st (by omega)
    · have hnot : t.id ∉ st.processed := by simpa using hp
      rcases hfind : t.artists.find?
          (fun a => decide (lookupInt st.counts a.id > 5)) with _ | a
      · -- admit branch
        have hstep : limitStep 5 st t =
            (⟨t.artists.foldl (fun m a => setInt m a.id (lookupInt m a.id - 1)) st.counts,
              t.id :: st.processed, st.acc ++ [t]⟩ : LimitState) := by
          simp [limitStep, hnot, hfind]
        rw [hstep]
        have hc2 : lookupInt (t.artists.foldl
            (fun m a => setInt m a.id (lookupInt m a.id - 1)) st.counts) A
            = lookupInt st.counts A - (occIn A t.artists : Int) :=
          lookupInt_foldDec A t.artists st.counts
        have hrec := ih
          (⟨t.artists.foldl (fun m a => setInt m a.id (lookupInt m a.id - 1)) st.counts,
            t.id :: st.processed, st.acc ++ [t]⟩ : LimitState)
          (by simp only; rw [hc2]; omega)
        simp only at hrec
        rw [hc2] at hrec
        by_cases hcr : creditsA A t = true
        · have hocc1 : 1 ≤ occIn A t.artists := occIn_pos_of_credits A t hcr
          have hle5 : lookupInt st.counts A ≤ 5 := by
            obtain ⟨a, ha, hid⟩ := List.any_eq_true.mp hcr
            have hnone := List.find?_eq_none.mp hfind a ha
            have : ¬ lookupInt st.counts a.id > 5 := by
              simpa using hnone
            have hid2 : a.id = A := by simpa using hid
            rw [hid2] at this
            omega
          have hacc : creditCount A (st.acc ++ [t]) = creditCount A st.acc + 1 := by
            simp [creditCount, List.countP_append, List.countP_cons, hcr]
          rw [hacc] at hrec
          have e1 : min (lookupInt st.counts A - (occIn A t.artists : Int)).toNat 5
              = (lookupInt st.counts A - (occIn A t.artists : Int)).toNat :=
            Nat.min_eq_left (by omega)
          have e2 : min (lookupInt st.counts A).toNat 5
              = (lookupInt st.counts A).toNat :=
            Nat.min_eq_left (by omega)
          rw [e1] at hrec
          rw [e2]
          omega
        · have hcr2 : creditsA A t = false := by
            cases hb : creditsA A t
            · rfl
            · exact absurd hb hcr
          have hocc0 : occIn A t.artists = 0 := occIn_zero_of_not_credits A t hcr2
          have hacc : creditCount A (st.acc ++ [t]) = creditCount A st.acc := by
            simp [creditCount, List.countP_append, List.countP_cons, hcr2]
          rw [hacc, hocc0] at hrec
          simpa using hrec
      · -- a credited artist exceeded the cap: skip the track, decrement it
        have hstep : limitStep 5 st t =
            (⟨setInt st.counts a.id (lookupInt st.counts a.id - 1),
              st.processed, st.acc⟩ : LimitState) := by
          simp [limitStep, hnot, hfind]
        rw [hstep]
        have hmem : a ∈ t.artists := List.mem_of_find?_eq_some hfind
        have hgt : lookupInt st.counts a.id > 5 := by
          have := List.find?_some hfind
          simpa using this
        by_cases h : a.id = A
        · have hocc1 : 1 ≤ occIn A t.artists := by
            apply occIn_pos_of_credits
            exact List.any_eq_true.mpr ⟨a, hmem, by simp [h]⟩
          have hc2 : lookupInt (setInt st.counts a.id (lookupInt st.counts a.id - 1)) A
              = lookupInt st.counts A - 1 := by
            rw [h]
            rw [h] at hgt
            exact lookupInt_setInt_self st.counts A _
          have hrec := ih
            (⟨setInt st.counts a.id (lookupInt st.counts a.id - 1),
              st.processed, st.acc⟩ : LimitState)
            (by simp only; rw [hc2]; omega)
          simp only at hrec
          rw [hc2] at hrec
          rw [h] at hgt
          have e1 : min (lookupInt st.counts A - 1).toNat 5 = 5 :=
            Nat.min_eq_right (by omega)
          have e2 : min (lookupInt st.counts A).toNat 5 = 5 :=
            Nat.min_eq_right (by omega)
          rw [e1] at hrec
          rw [e2]
          omega
        · have hc2 : lookupInt (setInt st.counts a.id (lookupInt st.counts a.id - 1)) A
              = lookupInt st.counts A :=
            lookupInt_setInt_ne _ _ _ _ (fun hx => h hx.symm)
          have hrec := ih
            (⟨setInt st.counts a.id (lookupInt st.counts a.id - 1),
              st.processed, st.acc⟩ : LimitState)
            (by simp only; rw [hc2]; omega)
          simp only at hrec
          rw [hc2] at hrec
          exact hrec

/-- The second pass only ever emits tracks of the input list. -/
theorem limitFold_acc_subset (maxS : Int) (l : List Track) :
    ∀ (st : LimitState) (x : Track),
      x ∈ (l.foldl (limitStep maxS) st).acc → x ∈ st.acc ∨ x ∈ l := by
  induction l with
  | nil => intro st x hx; exact Or.inl hx
  | cons t rest ih =>
    intro st x hx
    rw [List.foldl_cons] at hx
    rcases ih (limitStep maxS st t) x hx with h | h
    · unfold limitStep at h
      by_cases hp : st.processed.contains t.id = true
      · rw [if_pos hp] at h
        exact Or.inl h
      · rw [if_neg hp] at h
        rcases hfind : t.artists.find? (fun a => decide (lookupInt st.counts a.id > maxS))
          with _ | a
        · rw [hfind] at h
          simp only at h
          rcases List.mem_append.mp h with h2 | h2
          · exact Or.inl h2
          · exact Or.inr (List.mem_cons.mpr (Or.inl (List.mem_singleton.mp h2)))
        · rw [hfind] at h
          exact Or.inl h
    · exact Or.inr (List.mem_cons.mpr (Or.inr h))

/-- LimitSongsPerArtist returns a selection of its input tracks. -/
theorem LimitSongsPerArtist_subset (tracks : List Track) (maxS : Int) (x : Track)
    (hx : x ∈ LimitSongsPerArtist tracks maxS) : x ∈ tracks := by
  unfold LimitSongsPerArtist at hx
  by_cases hg : tracks.length = 0 ∨ maxS ≤ 0
  · rw [if_pos hg] at hx
    exact hx
  · rw [if_neg hg] at hx
    rcases limitFold_acc_subset maxS tracks _ x hx with h | h
    · simp at h
    · exact h

/-- The per-artist cap of any track list stays at five. -/
theorem LimitSongsPerArtist_creditCount_le (tracks : List Track) (A : String) :
    creditCount A (LimitSongsPerArtist tracks 5) ≤ 5 := by
  unfold LimitSongsPerArtist
  by_cases hg : tracks.length = 0 ∨ (5:Int) ≤ 0
  · rw [if_pos hg]
    rcases hg with hg | hg
    · rw [List.length_eq_zero.mp hg]
      simp [creditCount]
    · norm_num at hg
  · rw [if_neg hg]
    have hb := limitFold_creditCount_le A tracks
      (⟨firstPass tracks, [], []⟩ : LimitState)
      (by simp only; rw [firstPass_lookup])
    simp only [creditCount, List.countP_nil] at hb
    have hmin : min (lookupInt (firstPass tracks) A).toNat 5 ≤ 5 := Nat.min_le_right _ _
    simp only [creditCount]
    omega

/-- A successful pipeline run only passes through: the prelim succeeded and
the output is the liked-filtered, capped, shuffled, truncated pool. -/
theorem pipeline_ok_out (or : SpotifyOracle) (mood : String)
    (sh : List Track → List Track) (out : List Track)
    (h : (GetPersonalizedRecommendations or mood sh).1 = Except.ok out) :
    ∃ p : PrelimResult, (pipelinePrelim or mood).1 = Except.ok p ∧
      ∃ pool : List Track,
        (FilterTracksByLikedSongs pool p.likedTracks).length ≠ 0 ∧
        out = (if 50 < (sh (LimitSongsPerArtist
                  (FilterTracksByLikedSongs pool p.likedTracks) 5)).length
               then (sh (LimitSongsPerArtist
                  (FilterTracksByLikedSongs pool p.likedTracks) 5)).take 50
               else sh (LimitSongsPerArtist
                  (FilterTracksByLikedSongs pool p.likedTracks) 5)) := by
  simp only [GetPersonalizedRecommendations] at h
  rcases hP : (pipelinePrelim or mood).1 with e | p
  · simp only [hP] at h
    simp at h
  · simp only [hP] at h
    refine ⟨p, rfl,
      ((afterStage4 or mood p
        (afterStage3 or mood p (afterStage2 or mood p).1).1).1).allTracks, ?_, ?_⟩
    · intro hf
      rw [hf] at h
      simp at h
    · by_cases hf : (FilterTracksByLikedSongs
          ((afterStage4 or mood p
            (afterStage3 or mood p (afterStage2 or mood p).1).1).1).allTracks
          p.likedTracks).length = 0
      · rw [if_pos hf] at h
        simp at h
      · rw [if_neg hf] at h
        simp only [Except.ok.injEq] at h
        exact h.symm

/-- If the prelim succeeded, GetUserLikedTracks produced exactly its liked
map and that map is nonempty. -/
theorem prelim_ok_liked (or : SpotifyOracle) (mood : String) (p : PrelimResult)
    (h : (pipelinePrelim or mood).1 = Except.ok p) :
    (GetUserLikedTracks or).1 = Except.ok p.likedTracks ∧
    p.likedTracks.length ≠ 0 := by
  simp only [pipelinePrelim] at h
  rcases hG : (GetUserLikedTracks or).1 with e | ids
  · simp only [hG] at h
    simp at h
  · simp only [hG] at h
    by_cases hlen : ids.length = 0
    · rw [if_pos hlen] at h
      simp at h
    · rw [if_neg hlen] at h
      simp only [Except.ok.injEq] at h
      subst h
      refine ⟨?_, ?_⟩
      · rfl
      · exact hlen

/-- C2: For every input track list (multiple credited artists and duplicate
track IDs allowed), LimitSongsPerArtist(tracks, 5) yields at most 5 tracks
crediting any artist A; hence no artist appears on more than 5 tracks of a
successfully returned playlist. -/
theorem c2_artist_cap (tracks : List Track) (A : String) :
    creditCount A (LimitSongsPerArtist tracks 5) ≤ 5 ∧
    (∀ (or : SpotifyOracle) (mood : String) (sh : List Track → List Track),
      (∀ l, List.Perm (sh l) l) →
      ∀ out, (GetPersonalizedRecommendations or mood sh).1 = Except.ok out →
        creditCount A out ≤ 5) := by
  refine ⟨LimitSongsPerArtist_creditCount_le tracks A, ?_⟩
  intro or mood sh hsh out hout
  obtain ⟨p, _, pool, _, hOut⟩ := pipeline_ok_out or mood sh out hout
  have hperm : creditCount A
      (sh (LimitSongsPerArtist (FilterTracksByLikedSongs pool p.likedTracks) 5))
      = creditCount A
      (LimitSongsPerArtist (FilterTracksByLikedSongs pool p.likedTracks) 5) :=
    (hsh _).countP_eq _
  rw [hOut]
  by_cases h50 : 50 < (sh (LimitSongsPerArtist
      (FilterTracksByLikedSongs pool p.likedTracks) 5)).length
  · rw [if_pos h50]
    calc creditCount A ((sh (LimitSongsPerArtist
          (FilterTracksByLikedSongs pool p.likedTracks) 5)).take 50)
        ≤ creditCount A (sh (LimitSongsPerArtist
          (FilterTracksByLikedSongs pool p.likedTracks) 5)) :=
          (List.take_sublist _ _).countP_le _
      _ = _ := hperm
      _ ≤ 5 := LimitSongsPerArtist_creditCount_le _ A
  · rw [if_neg h50, hperm]
    exact LimitSongsPerArtist_creditCount_le _ A

/-- C2 witness: the pipeline-level cap instantiated on the one-track run. -/
theorem c2_artist_cap_witness :
    (GetPersonalizedRecommendations or1 "energetic" (fun l => l)).1
      = Except.ok [trackU1] ∧ creditCount "a1" [trackU1] ≤ 5 := by
  have hok : (GetPersonalizedRecommendations or1 "energetic" (fun l => l)).1
      = Except.ok [trackU1] := by decide
  exact ⟨hok, (c2_artist_cap [] "a1").2 or1 "energetic" (fun l => l)
    (fun l => List.Perm.refl l) [trackU1] hok⟩

/-- When every track credits exactly the one artist a, ids are distinct and
the counter holds the number of remaining tracks, the second pass skips
tracks while the counter exceeds 5 and then admits everything: it keeps the
last five. -/
theorem limitFold_single_artist (a : Artist) (l : List Track) :
    ∀ st : LimitState,
      (∀ t ∈ l, t.artists = [a]) →
      (l.map (fun t => t.id)).Nodup →
      (∀ t ∈ l, st.processed.contains t.id = false) →
      lookupInt st.counts a.id = (l.length : Int) →
      (l.foldl (limitStep 5) st).acc = st.acc ++ l.drop (l.length - 5) := by
  induction l with
  | nil =>
    intro st _ _ _ _
    simp
  | cons t rest ih =>
    intro st hart hnd hpr hcnt
    rw [List.foldl_cons]
    have hta : t.artists = [a] := hart t (List.mem_cons_self t rest)
    have hp : st.processed.contains t.id = false :=
      hpr t (List.mem_cons_self t rest)
    have hnot : t.id ∉ st.processed := by simpa using hp
    have hlen : lookupInt st.counts a.id = ((rest.length : Int) + 1) := by
      rw [hcnt]
      push_cast [List.length_cons]
      ring
    by_cases hbig : 5 < (rest.length : Int) + 1
    · -- counter still exceeds the cap: skip and decrement
      have hdec : decide (lookupInt st.counts a.id > 5) = true :=
        decide_eq_true (by rw [hlen]; exact hbig)
      have hfind : t.artists.find?
          (fun x => decide (lookupInt st.counts x.id > 5)) = some a := by
        rw [hta]
        simp [List.find?, hdec]
      have hstep : limitStep 5 st t =
          (⟨setInt st.counts a.id (lookupInt st.counts a.id - 1),
            st.processed, st.acc⟩ : LimitState) := by
        simp [limitStep, hnot, hfind]
      rw [hstep]
      have hrest := ih
        (⟨setInt st.counts a.id (lookupInt st.counts a.id - 1),
          st.processed, st.acc⟩ : LimitState)
        (fun t2 ht2 => hart t2 (List.mem_cons_of_mem t ht2))
        (by simpa using hnd.of_cons)
        (fun t2 ht2 => hpr t2 (List.mem_cons_of_mem t ht2))
        (by simp only [lookupInt_setInt_self]; rw [hlen]; ring)
      rw [hrest]
      have h5 : 5 ≤ rest.length := by
        have : (5:Int) < (rest.length : Int) + 1 := hbig
        omega
      have hd : (t :: rest).length - 5 = (rest.length - 5) + 1 := by
        simp only [List.length_cons]
        omega
      rw [hd, List.drop_succ_cons]
    · -- counter at or below the cap: everything remaining is admitted
      have hdec : decide (lookupInt st.counts a.id > 5) = false :=
        decide_eq_false (by rw [hlen]; omega)
      have hfind : t.artists.find?
          (fun x => decide (lookupInt st.counts x.id > 5)) = none := by
        rw [hta]
        simp [List.find?, hdec]
      have hstep : limitStep 5 st t =
          (⟨t.artists.foldl (fun m x => setInt m x.id (lookupInt m x.id - 1)) st.counts,
            t.id :: st.processed, st.acc ++ [t]⟩ : LimitState) := by
        simp [limitStep, hnot, hfind]
      rw [hstep]
      have hcnt2 : lookupInt (t.artists.foldl
          (fun m x => setInt m x.id (lookupInt m x.id - 1)) st.counts) a.id
          = (rest.length : Int) := by
        rw [hta]
        simp only [List.foldl_cons, List.foldl_nil, lookupInt_setInt_self]
        rw [hlen]
        ring
      have hidr : t.id ∉ rest.map (fun t => t.id) := by
        have := hnd
        simp only [List.map_cons, List.nodup_cons] at this
        exact this.1
      have hrest := ih
        (⟨t.artists.foldl (fun m x => setInt m x.id (lookupInt m x.id - 1)) st.counts,
          t.id :: st.processed, st.acc ++ [t]⟩ : LimitState)
        (fun t2 ht2 => hart t2 (List.mem_cons_of_mem t ht2))
        (by simpa using hnd.of_cons)
        (by
          intro t2 ht2
          have hne : t2.id ≠ t.id := by
            intro he
            exact hidr (he ▸ List.mem_map_of_mem (fun t => t.id) ht2)
          have h2 : st.processed.contains t2.id = false :=
            hpr t2 (List.mem_cons_of_mem t ht2)
          simp only [List.contains_cons]
          simp [hne, h2]
          simpa using h2)
        hcnt2
      rw [hrest]
      have hz1 : (t :: rest).length - 5 = 0 := by
        simp only [List.length_cons]
        omega
      have hz2 : rest.length - 5 = 0 := by omega
      rw [hz1, hz2]
      simp

/-- C4 counterexample: six distinct tracks by a single artist; the code
keeps the last five (it drops the first track), not the first five as the
claim states. -/
theorem c4_counterexample :
    LimitSongsPerArtist sixTracksA 5 = sixTracksA.drop 1 ∧
    sixTracksA.drop 1 ≠ sixTracksA.take 5 := by
  constructor <;> decide

/-- C4 (amended): the cap initializes each artist's counter to its total
number of credited occurrences in the pool (firstPass); a track is admitted
exactly when no credited artist's counter exceeds 5, the first exceeding
artist's counter is decremented on rejection and every credited artist's
counter on admission; consequently, when one artist is the sole credit of
more than 5 distinct candidate tracks, the 5 admitted ones are the LAST 5
in pool order, not the first 5. -/
theorem c4_amended_last_five (a : Artist) (tracks : List Track)
    (hart : ∀ t ∈ tracks, t.artists = [a])
    (hnd : (tracks.map (fun t => t.id)).Nodup)
    (hlen : 5 < tracks.length) :
    LimitSongsPerArtist tracks 5 = tracks.drop (tracks.length - 5) := by
  unfold LimitSongsPerArtist
  have hg : ¬(tracks.length = 0 ∨ (5:Int) ≤ 0) := by
    push_neg
    refine ⟨by omega, by norm_num⟩
  rw [if_neg hg]
  have hocc : occList a.id tracks = tracks.length := by
    unfold occList
    have hmap : tracks.map (fun t => occIn a.id t.artists)
        = tracks.map (fun _ => 1) := by
      apply List.map_congr_left
      intro t ht
      rw [hart t ht]
      simp [occIn]
    rw [hmap]
    simp [List.map_const']
  have := limitFold_single_artist a tracks
    (⟨firstPass tracks, [], []⟩ : LimitState) hart hnd
    (fun t _ => rfl)
    (by simp only; rw [firstPass_lookup, hocc])
  simpa using this

/-- C4 witness: the amended claim applied to the six-track fixture. -/
theorem c4_amended_last_five_witness :
    LimitSongsPerArtist sixTracksA 5
      = sixTracksA.drop (sixTracksA.length - 5) :=
  c4_amended_last_five artistA sixTracksA (by decide) (by decide) (by decide)

/-! ### Membership and size of the final output (C1, C5) -/

/-- C1: every track of a successfully returned playlist is a key of the
likedTracks map built by GetUserLikedTracks; no track outside the liked set
ever appears in the output. -/
theorem c1_output_subset_liked (or : SpotifyOracle) (mood : String)
    (sh : List Track → List Track) (hsh : ∀ l, List.Perm (sh l) l)
    (liked : List String) (out : List Track)
    (hliked : (GetUserLikedTracks or).1 = Except.ok liked)
    (hout : (GetPersonalizedRecommendations or mood sh).1 = Except.ok out) :
    ∀ t ∈ out, liked.contains t.id = true := by
  obtain ⟨p, hP, pool, hne, hOut⟩ := pipeline_ok_out or mood sh out hout
  obtain ⟨hg, hlen⟩ := prelim_ok_liked or mood p hP
  have hpl : p.likedTracks = liked := by
    rw [hliked] at hg
    simpa using hg.symm
  intro t ht
  rw [hOut] at ht
  have ht2 : t ∈ sh (LimitSongsPerArtist
      (FilterTracksByLikedSongs pool p.likedTracks) 5) := by
    by_cases h50 : 50 < (sh (LimitSongsPerArtist
        (FilterTracksByLikedSongs pool p.likedTracks) 5)).length
    · rw [if_pos h50] at ht
      exact List.take_subset _ _ ht
    · rw [if_neg h50] at ht
      exact ht
  have ht3 : t ∈ LimitSongsPerArtist
      (FilterTracksByLikedSongs pool p.likedTracks) 5 :=
    ((hsh _).mem_iff).mp ht2
  have ht4 : t ∈ FilterTracksByLikedSongs pool p.likedTracks :=
    LimitSongsPerArtist_subset _ _ _ ht3
  have hfl : ¬ p.likedTracks.length = 0 := hlen
  unfold FilterTracksByLikedSongs at ht4
  rw [if_neg hfl] at ht4
  have := (List.mem_filter.mp ht4).2
  rw [hpl] at this
  simpa using this

/-- C1 witness: the membership theorem applied to the one-track run. -/
theorem c1_output_subset_liked_witness :
    (GetUserLikedTracks or1).1 = Except.ok ["u1"] ∧
    (GetPersonalizedRecommendations or1 "energetic" (fun l => l)).1
      = Except.ok [trackU1] ∧
    (["u1"] : List String).contains trackU1.id = true := by
  have h1 : (GetUserLikedTracks or1).1 = Except.ok ["u1"] := by decide
  have h2 : (GetPersonalizedRecommendations or1 "energetic" (fun l => l)).1
      = Except.ok [trackU1] := by decide
  exact ⟨h1, h2,
    c1_output_subset_liked or1 "energetic" (fun l => l)
      (fun l => List.Perm.refl l) ["u1"] [trackU1] h1 h2 trackU1
      (List.mem_singleton.mpr rfl)⟩

/-- C5 counterexample: a liked library of twelve tracks, all crediting the
same two artists and all matching the mood, makes the pipeline return the
empty list with no error - the per-artist cap runs after the emptiness
check and can empty the playlist. -/
theorem c5_counterexample :
    (GetPersonalizedRecommendations or12 "energetic" (fun l => l)).1
      = Except.ok ([] : List Track) := by
  decide

/-- C5 (amended): GetPersonalizedRecommendations returns at most 50 tracks
or an error, and it errors when the liked-membership filter leaves no
tracks; but because the per-artist cap runs after that emptiness check, a
successful run can still return an empty list. -/
theorem c5_amended_size_bound (or : SpotifyOracle) (mood : String)
    (sh : List Track → List Track) (out : List Track)
    (hout : (GetPersonalizedRecommendations or mood sh).1 = Except.ok out) :
    out.length ≤ 50 := by
  obtain ⟨p, hP, pool, hne, hOut⟩ := pipeline_ok_out or mood sh out hout
  rw [hOut]
  by_cases h50 : 50 < (sh (LimitSongsPerArtist
      (FilterTracksByLikedSongs pool p.likedTracks) 5)).length
  · rw [if_pos h50]
    simp [List.length_take]
  · rw [if_neg h50]
    omega

/-- C5 witness: the size bound applied to the twelve-track run. -/
theorem c5_amended_size_bound_witness :
    (GetPersonalizedRecommendations or12 "energetic" (fun l => l)).1
      = Except.ok ([] : List Track) ∧ ([] : List Track).length ≤ 50 := by
  have h : (GetPersonalizedRecommendations or12 "energetic" (fun l => l)).1
      = Except.ok ([] : List Track) := by decide
  exact ⟨h, c5_amended_size_bound or12 "energetic" (fun l => l) [] h⟩

/-! ### Characterizing the saved-tracks paging loop (C7) -/

/-- Running the loop over full pages accumulates every page and stops only
when the offsets (the 20-page cap) run out. -/
theorem likedLoop_full (fetch : Nat → Nat → Except String (List Track))
    (pages : Nat → List Track)
    (hsp : ∀ i, fetch 50 (50 * i) = Except.ok (pages i)) :
    ∀ (n j : Nat) (acc : List String) (tr : List Call),
      (∀ i, j ≤ i → i < j + n → (pages i).length = 50) →
      likedLoop fetch ((List.range' j n).map (fun i => 50 * i)) acc tr
        = (.ok (insertAllIDs acc (pagesSeg pages j n)), tr ++ callsSeg j n) := by
  intro n
  induction n with
  | zero =>
    intro j acc tr _
    simp [likedLoop, pagesSeg, insertAllIDs, callsSeg]
  | succ n ihn =>
    intro j acc tr hfull
    have hro : List.range' j (n + 1) = j :: List.range' (j + 1) n := List.range'_succ j n 1
    have h50 : (pages j).length = 50 := hfull j (Nat.le_refl j) (by omega)
    rw [hro, List.map_cons]
    rw [likedLoop, hsp j]
    simp only [h50]
    norm_num
    rw [ihn (j + 1) (List.foldl (fun a t => insertKey a t.id) acc (pages j))
      (tr ++ [Call.savedTracksPage 50 (50 * j)])
      (fun i hi1 hi2 => hfull i (by omega) (by omega))]
    simp [insertAllIDs, pagesSeg, callsSeg, hro, List.foldl_append, List.append_assoc]

/-- Running the loop up to the first short page accumulates pages j..k and
stops there. -/
theorem likedLoop_stop (fetch : Nat → Nat → Except String (List Track))
    (pages : Nat → List Track)
    (hsp : ∀ i, fetch 50 (50 * i) = Except.ok (pages i)) :
    ∀ (n j k : Nat) (acc : List String) (tr : List Call),
      j ≤ k → k < j + n →
      (∀ i, j ≤ i → i < k → (pages i).length = 50) →
      (pages k).length < 50 →
      likedLoop fetch ((List.range' j n).map (fun i => 50 * i)) acc tr
        = (.ok (insertAllIDs acc (pagesSeg pages j (k + 1 - j))),
           tr ++ callsSeg j (k + 1 - j)) := by
  intro n
  induction n with
  | zero =>
    intro j k acc tr hjk hkn _ _
    omega
  | succ n ihn =>
    intro j k acc tr hjk hkn hfull hshort
    have hro : List.range' j (n + 1) = j :: List.range' (j + 1) n := List.range'_succ j n 1
    rw [hro, List.map_cons]
    rw [likedLoop, hsp j]
    by_cases hjk2 : j = k
    · subst hjk2
      have hseg1 : j + 1 - j = 1 := by omega
      rw [hseg1]
      have hps : pagesSeg pages j 1 = pages j := by
        simp [pagesSeg, List.range'_one]
      have hcs : callsSeg j 1 = [Call.savedTracksPage 50 (50 * j)] := by
        simp [callsSeg, List.range'_one]
      rw [hps, hcs]
      by_cases hz : (pages j).length = 0
      · simp only [hz]
        norm_num
        have : pages j = [] := List.length_eq_zero.mp hz
        simp [this, insertAllIDs]
      · simp only [if_neg hz, if_pos hshort]
        simp [insertAllIDs]
    · have hlt : j < k := Nat.lt_of_le_of_ne hjk hjk2
      have h50 : (pages j).length = 50 := hfull j (Nat.le_refl j) hlt
      simp only [h50]
      norm_num
      rw [ihn (j + 1) k (List.foldl (fun a t => insertKey a t.id) acc (pages j))
        (tr ++ [Call.savedTracksPage 50 (50 * j)]) (by omega) (by omega)
        (fun i hi1 hi2 => hfull i (by omega) hi2) hshort]
      have hro3 : List.range' j ((k - j) + 1) = j :: List.range' (j + 1) (k - j) :=
        List.range'_succ j (k - j) 1
      have harith : k + 1 - j = (k - j) + 1 := by omega
      have harith2 : k + 1 - (j + 1) = k - j := by omega
      rw [harith, harith2]
      simp [insertAllIDs, pagesSeg, callsSeg, hro3, List.foldl_append, List.append_assoc]

/-- C7: GetUserLikedTracks pages through the saved-tracks endpoint with
fixed page size 50 at offsets 0, 50, 100, ...; it accumulates the track IDs
of every fetched page and stops exactly with the first page of fewer than
50 tracks, or after 20 pages (the 1000-track cap), whichever comes first;
it returns the no-liked-songs error instead of a track set when the
accumulated set is empty. -/
theorem c7_paging (pages : Nat → List Track) (or : SpotifyOracle)
    (hsp : ∀ i, or.savedPage 50 (50 * i) = Except.ok (pages i)) :
    (∀ k, k < 20 → (∀ i, i < k → (pages i).length = 50) →
      (pages k).length < 50 →
      GetUserLikedTracks or
        = (mkLikedResult (collectLikedIDs pages (k + 1)), likedPageCalls (k + 1)))
  ∧ ((∀ i, i < 20 → (pages i).length = 50) →
      GetUserLikedTracks or
        = (mkLikedResult (collectLikedIDs pages 20), likedPageCalls 20)) := by
  have hpo : pagingOffsets = (List.range' 0 20).map (fun i => 50 * i) := by
    simp [pagingOffsets, List.range_eq_range']
  constructor
  · intro k hk hfull hshort
    have hloop := likedLoop_stop or.savedPage pages hsp 20 0 k [] []
      (by omega) (by omega) (fun i _ hi => hfull i hi) hshort
    unfold GetUserLikedTracks
    rw [hpo, hloop]
    have hk0 : k + 1 - 0 = k + 1 := by omega
    rw [hk0]
    unfold mkLikedResult collectLikedIDs likedPageCalls
    by_cases hz : (insertAllIDs [] (pagesSeg pages 0 (k + 1))).length = 0 <;>
      simp [hz]
  · intro hfull
    have hloop := likedLoop_full or.savedPage pages hsp 20 0 [] []
      (fun i _ hi => hfull i (by omega))
    unfold GetUserLikedTracks
    rw [hpo, hloop]
    unfold mkLikedResult collectLikedIDs likedPageCalls
    by_cases hz : (insertAllIDs [] (pagesSeg pages 0 20)).length = 0 <;>
      simp [hz]

/-- C7 witness: the characterization applied to a two-page run (one full
page, then a one-track page) and to an endless full library (cap after 20
pages). -/
theorem c7_paging_witness :
    GetUserLikedTracks orC7
      = (mkLikedResult (collectLikedIDs pagesC7 2), likedPageCalls 2) ∧
    GetUserLikedTracks orC7full
      = (mkLikedResult (collectLikedIDs pagesFull 20), likedPageCalls 20) := by
  have hsp1 : ∀ i, orC7.savedPage 50 (50 * i) = Except.ok (pagesC7 i) := by
    intro i
    rcases i with _ | _ | n
    · rfl
    · rfl
    · have h1 : ¬ 50 * (n + 2) = 0 := by omega
      have h2 : ¬ 50 * (n + 2) = 50 := by omega
      simp [orC7, oracleBase, pagesC7, h1, h2]
  have hsp2 : ∀ i, orC7full.savedPage 50 (50 * i) = Except.ok (pagesFull i) := by
    intro i
    rfl
  constructor
  · exact (c7_paging pagesC7 orC7 hsp1).1 1 (by omega)
      (fun i hi => by
        have : i = 0 := by omega
        subst this
        decide)
      (by decide)
  · exact (c7_paging pagesFull orC7full hsp2).2
      (fun i _ => (by decide : exTracks50.length = 50))

/-! ### Which calls each pipeline component can make (C6, C8) -/

/-- The saved-tracks paging loop only issues saved-tracks calls. -/
theorem likedLoop_trace_all (P : Call → Bool)
    (h1 : ∀ l o, P (.savedTracksPage l o) = true)
    (fetch : Nat → Nat → Except String (List Track)) :
    ∀ (offsets : List Nat) (acc : List String) (tr : List Call),
      tr.all P = true → ((likedLoop fetch offsets acc tr).2).all P = true := by
  intro offsets
  induction offsets with
  | nil =>
    intro acc tr h
    simpa [likedLoop] using h
  | cons o rest ih =>
    intro acc tr h
    rw [likedLoop]
    cases fetch 50 o with
    | error e => simp [List.all_append, h, h1]
    | ok page =>
      by_cases hz : page.length = 0
      · simp [hz, List.all_append, h, h1]
      · by_cases hs : page.length < 50
        · simp [hz, hs, List.all_append, h, h1]
        · simp only [hz, hs, if_false]
          exact ih _ _ (by simp [List.all_append, h, h1])

/-- Same for the artist-collecting paging loop. -/
theorem likedArtistsLoop_trace_all (P : Call → Bool)
    (h1 : ∀ l o, P (.savedTracksPage l o) = true)
    (fetch : Nat → Nat → Except String (List Track)) :
    ∀ (offsets : List Nat) (acc : List String) (tr : List Call),
      tr.all P = true → ((likedArtistsLoop fetch offsets acc tr).2).all P = true := by
  intro offsets
  induction offsets with
  | nil =>
    intro acc tr h
    simpa [likedArtistsLoop] using h
  | cons o rest ih =>
    intro acc tr h
    rw [likedArtistsLoop]
    cases fetch 50 o with
    | error e => simp [List.all_append, h, h1]
    | ok page =>
      by_cases hz : page.length = 0
      · simp [hz, List.all_append, h, h1]
      · by_cases hs : page.length < 50
        · simp [hz, hs, List.all_append, h, h1]
        · simp only [hz, hs, if_false]
          exact ih _ _ (by simp [List.all_append, h, h1])

/-- A fold whose step preserves "every logged call satisfies P" keeps that
property of the trace component. -/
theorem foldl_trace_all {α : Type} {β : Type} (P : Call → Bool)
    (f : β × List Call → α → β × List Call)
    (hf : ∀ acc x, acc.2.all P = true → ((f acc x).2).all P = true) :
    ∀ (l : List α) (acc : β × List Call), acc.2.all P = true →
      ((l.foldl f acc).2).all P = true := by
  intro l
  induction l with
  | nil => intro acc h; simpa using h
  | cons x xs ih =>
    intro acc h
    rw [List.foldl_cons]
    exact ih _ (hf acc x h)

/-- GetUserLikedTracks only issues saved-tracks calls. -/
theorem GetUserLikedTracks_trace_all (P : Call → Bool)
    (h1 : ∀ l o, P (.savedTracksPage l o) = true) (or : SpotifyOracle) :
    ((GetUserLikedTracks or).2).all P = true := by
  have hl := likedLoop_trace_all P h1 or.savedPage pagingOffsets [] [] rfl
  rcases hres : likedLoop or.savedPage pagingOffsets [] [] with ⟨r1, r2⟩
  rw [hres] at hl
  unfold GetUserLikedTracks
  rw [hres]
  cases r1 with
  | error e => simpa using hl
  | ok ids => by_cases hz : ids.length = 0 <;> simpa [hz] using hl

/-- GetUserLikedArtists only issues saved-tracks calls. -/
theorem GetUserLikedArtists_trace_all (P : Call → Bool)
    (h1 : ∀ l o, P (.savedTracksPage l o) = true) (or : SpotifyOracle) :
    ((GetUserLikedArtists or).2).all P = true := by
  have hl := likedArtistsLoop_trace_all P h1 or.savedPageArtists pagingOffsets [] [] rfl
  rcases hres : likedArtistsLoop or.savedPageArtists pagingOffsets [] [] with ⟨r1, r2⟩
  rw [hres] at hl
  unfold GetUserLikedArtists
  rw [hres]
  cases r1 with
  | error e => simpa using hl
  | ok ids => by_cases hz : ids.length = 0 <;> simpa [hz] using hl

/-- The GetTracks batching only issues GetTracks calls. -/
theorem batchFetchTracks_trace_all (P : Call → Bool)
    (h4 : ∀ ids, P (.getTracksCall ids) = true) (or : SpotifyOracle)
    (ids : List String) :
    ((batchFetchTracks or ids).2).all P = true := by
  unfold batchFetchTracks
  apply foldl_trace_all P _ _ (chunksOf 20 ids) ([], []) rfl
  intro acc b h
  cases or.getTracksResp b with
  | error e => simp [List.all_append, h, h4]
  | ok ts =>
    by_cases hp : 0 < ts.length <;> simp [hp, List.all_append, h, h4]

/-- The audio-feature stage only issues GetAudioFeatures calls. -/
theorem analyze_trace_all (P : Call → Bool)
    (h5 : ∀ ids, P (.audioFeaturesCall ids) = true) (or : SpotifyOracle)
    (trackIDs : List String) (mood : String) :
    ((AnalyzeAudioFeaturesForMood or trackIDs mood).2).all P = true := by
  unfold AnalyzeAudioFeaturesForMood
  by_cases hz : trackIDs.length = 0
  · simp [hz]
  · simp only [hz, if_false]
    cases or.audioFeaturesResp (trackIDs.take (min 5 trackIDs.length)) with
    | error e => simp [h5]
    | ok feats =>
      simp only [List.all_append, List.all_cons, List.all_nil, Bool.and_true, h5,
        Bool.true_and]
      apply foldl_trace_all P _ _ (chunksOf 100 trackIDs) ([], []) rfl
      intro acc b h
      cases or.audioFeaturesResp b with
      | error e => simp [List.all_append, h, h5]
      | ok feats => simp [List.all_append, h, h5]

/-- The whole prelim makes only saved-tracks, top-artist, top-track,
GetTracks and audio-feature calls. -/
theorem prelim_trace_all (P : Call → Bool)
    (h1 : ∀ l o, P (.savedTracksPage l o) = true)
    (h2 : P .topArtistsCall = true) (h3 : P .topTracksCall = true)
    (h4 : ∀ ids, P (.getTracksCall ids) = true)
    (h5 : ∀ ids, P (.audioFeaturesCall ids) = true)
    (or : SpotifyOracle) (mood : String) :
    ((pipelinePrelim or mood).2).all P = true := by
  have hglt := GetUserLikedTracks_trace_all P h1 or
  rcases hres : GetUserLikedTracks or with ⟨g1, g2⟩
  rw [hres] at hglt
  unfold pipelinePrelim
  rw [hres]
  cases g1 with
  | error e => simpa using hglt
  | ok ids =>
    by_cases hz : ids.length = 0
    · simpa [hz] using hglt
    · have hla := GetUserLikedArtists_trace_all P h1 or
      have hbf := batchFetchTracks_trace_all P h4 or ids
      have haf := analyze_trace_all P h5 or ids mood
      simp [hz, List.all_append, hglt, hla, hbf, haf, h2, h3]

/-- The genre-cache artist loop only issues GetArtist calls. -/
theorem genreArtistLoop_trace_all (P : Call → Bool)
    (h6 : ∀ i, P (.getArtistCall i) = true) (or : SpotifyOracle)
    (mg : List String) :
    ∀ (arts : List Artist) (cache : GenreCache) (tr : List Call),
      tr.all P = true →
      ((genreArtistLoop or mg arts cache tr).2.2).all P = true := by
  intro arts
  induction arts with
  | nil => intro cache tr h; simpa [genreArtistLoop] using h
  | cons a rest ih =>
    intro cache tr h
    rw [genreArtistLoop]
    cases lookupGenres cache a.id with
    | some gs =>
      by_cases hm : artistGenresMatch mg gs = true
      · simpa [hm] using h
      · simp only [hm, if_false]
        exact ih cache tr h
    | none =>
      cases or.artistGenresResp a.id with
      | error e => exact ih _ _ (by simp [List.all_append, h, h6])
      | ok gs =>
        by_cases hm : artistGenresMatch mg gs = true
        · simp [hm, List.all_append, h, h6]
        · simp only [hm, if_false]
          exact ih _ _ (by simp [List.all_append, h, h6])

/-- The genre track loop only issues GetArtist calls. -/
theorem genreTrackLoop_trace_all (P : Call → Bool)
    (h6 : ∀ i, P (.getArtistCall i) = true) (or : SpotifyOracle)
    (mg : List String) :
    ∀ (ts : List Track) (st : PoolState) (cache : GenreCache) (tr : List Call),
      tr.all P = true →
      ((genreTrackLoop or mg ts st cache tr).2.2).all P = true := by
  intro ts
  induction ts with
  | nil => intro st cache tr h; simpa [genreTrackLoop] using h
  | cons t rest ih =>
    intro st cache tr h
    rw [genreTrackLoop]
    by_cases hseen : st.seen.contains t.id = true
    · simp only [hseen, if_true]
      exact ih st cache tr h
    · simp only [hseen, if_false]
      have hart := genreArtistLoop_trace_all P h6 or mg t.artists cache tr h
      rcases hres : genreArtistLoop or mg t.artists cache tr with ⟨matched, cache2, tr2⟩
      rw [hres] at hart
      simp only at hart
      cases matched with
      | false => simpa using ih st cache2 tr2 hart
      | true =>
        by_cases hc : 100 ≤ (addTrack st t).allTracks.length
        · simpa [hc] using hart
        · simp only [hc, if_false]
          simpa using ih (addTrack st t) cache2 tr2 hart

/-- The playlist item loop only issues playlist-item calls. -/
theorem minePlaylistLoop_trace_all (P : Call → Bool)
    (h8 : ∀ pid, P (.playlistItemsCall pid) = true) (or : SpotifyOracle) :
    ∀ (pls : List Playlist) (acc : List Track) (tr : List Call),
      tr.all P = true →
      ((minePlaylistLoop or pls acc tr).2).all P = true := by
  intro pls
  induction pls with
  | nil => intro acc tr h; simpa [minePlaylistLoop] using h
  | cons p rest ih =>
    intro acc tr h
    rw [minePlaylistLoop]
    by_cases hc : 200 ≤ acc.length
    · simpa [hc] using h
    · simp only [hc, if_false]
      cases or.playlistItemsResp p.id with
      | error e => exact ih _ _ (by simp [List.all_append, h, h8])
      | ok items => exact ih _ _ (by simp [List.all_append, h, h8])

/-- The playlist query loop only issues playlist-search and playlist-item
calls. -/
theorem minePlaylistsQueries_trace_all (P : Call → Bool)
    (h7 : ∀ q l, P (.searchPlaylistsCall q l) = true)
    (h8 : ∀ pid, P (.playlistItemsCall pid) = true) (or : SpotifyOracle) :
    ∀ (qs : List String) (acc : List Track) (tr : List Call),
      tr.all P = true →
      ((minePlaylistsQueries or qs acc tr).2).all P = true := by
  intro qs
  induction qs with
  | nil => intro acc tr h; simpa [minePlaylistsQueries] using h
  | cons q rest ih =>
    intro acc tr h
    rw [minePlaylistsQueries]
    by_cases hc : 200 ≤ acc.length
    · simpa [hc] using h
    · simp only [hc, if_false]
      cases or.searchPlaylistsResp q with
      | error e => exact ih _ _ (by simp [List.all_append, h, h7])
      | ok pls =>
        have hmine := minePlaylistLoop_trace_all P h8 or pls acc
          (tr ++ [.searchPlaylistsCall q 5]) (by simp [List.all_append, h, h7])
        rcases hres : minePlaylistLoop or pls acc (tr ++ [.searchPlaylistsCall q 5])
          with ⟨acc2, tr2⟩
        rw [hres] at hmine
        simp only [hres]
        exact ih acc2 tr2 (by simpa using hmine)

/-- The catalog-recommendation stage only issues the recommendations call
and GetTracks batches. -/
theorem stage4_trace_all (P : Call → Bool)
    (h4 : ∀ ids, P (.getTracksCall ids) = true)
    (h9 : ∀ s l, P (.recommendationsCall s l) = true)
    (or : SpotifyOracle) (mood : String) (topArtists : List Artist)
    (topTracks : List Track) (likedArtists likedTracks : List String)
    (st : PoolState) :
    ((stage4Recommendations or mood topArtists topTracks likedArtists
        likedTracks st).2).all P = true := by
  unfold stage4Recommendations
  rcases hres : or.recommendationsResp
      (stage4Seeds mood topArtists topTracks likedArtists likedTracks) with e | recs
  · simp [hres, h9]
  · by_cases hl : 0 < recs.length
    · have := batchFetchTracks_trace_all P h4 or (recs.map (fun t => t.id))
      simp [hres, hl, h9, this]
    · simp [hres, hl, h9]

/-- GetPersonalizedRecommendations never makes a call outside the nine
families above; in particular it never performs a plain track search. -/
theorem pipeline_trace_all (P : Call → Bool)
    (h1 : ∀ l o, P (.savedTracksPage l o) = true)
    (h2 : P .topArtistsCall = true) (h3 : P .topTracksCall = true)
    (h4 : ∀ ids, P (.getTracksCall ids) = true)
    (h5 : ∀ ids, P (.audioFeaturesCall ids) = true)
    (h6 : ∀ i, P (.getArtistCall i) = true)
    (h7 : ∀ q l, P (.searchPlaylistsCall q l) = true)
    (h8 : ∀ pid, P (.playlistItemsCall pid) = true)
    (h9 : ∀ s l, P (.recommendationsCall s l) = true)
    (or : SpotifyOracle) (mood : String) (sh : List Track → List Track) :
    ((GetPersonalizedRecommendations or mood sh).2).all P = true := by
  have hpre := prelim_trace_all P h1 h2 h3 h4 h5 or mood
  rcases hres : pipelinePrelim or mood with ⟨p1, p2⟩
  rw [hres] at hpre
  unfold GetPersonalizedRecommendations
  rw [hres]
  cases p1 with
  | error e => simpa using hpre
  | ok p =>
    have hs2 : ((afterStage2 or mood p).2).all P = true := by
      unfold afterStage2
      by_cases hc : p.pool.allTracks.length < 50
      · simp only [hc, if_true]
        exact genreTrackLoop_trace_all P h6 or _ _ _ _ [] rfl
      · simp [hc]
    have hs3 : ((afterStage3 or mood p (afterStage2 or mood p).1).2).all P = true := by
      unfold afterStage3
      by_cases hc : ((afterStage2 or mood p).1).allTracks.length < 50
      · simp only [hc, if_true]
        unfold stage3Run
        simp only
        exact minePlaylistsQueries_trace_all P h7 h8 or _ [] [] rfl
      · simp [hc]
    have hs4 : ((afterStage4 or mood p
        (afterStage3 or mood p (afterStage2 or mood p).1).1).2).all P = true := by
      unfold afterStage4
      by_cases hc : ((afterStage3 or mood p (afterStage2 or mood p).1).1).allTracks.length < 50
      · simp only [hc, if_true]
        exact stage4_trace_all P h4 h9 or mood _ _ _ _ _
      · simp [hc]
    by_cases hf : (FilterTracksByLikedSongs
        ((afterStage4 or mood p
          (afterStage3 or mood p (afterStage2 or mood p).1).1).1).allTracks
        p.likedTracks).length = 0 <;>
      simp [hf, List.all_append, hpre, hs2, hs3, hs4]

/-- C6 counterexample: a run in which every candidate-gathering stage
leaves the pool empty ends in an error, and no plain track-search call
appears anywhere in its trace — GetPersonalizedRecommendations has no
plain-search fallback stage. -/
theorem c6_counterexample :
    (GetPersonalizedRecommendations orEmptyRun "energetic" (fun l => l)).1
      = Except.error "no tracks found in your liked songs that match the criteria - please like more songs on Spotify"
    ∧ ((GetPersonalizedRecommendations orEmptyRun "energetic" (fun l => l)).2).any
        isSearchTracksCall = false := by
  constructor
  · decide
  · decide

/-- C6 (amended): GetPersonalizedRecommendations never performs a plain
track search, whatever the oracle returns; the single mood-keyword search
with limit 20 lives only in the separate function
GetSearchBasedRecommendations, which the personalized pipeline never
invokes, and which returns its hits without any liked-library filter. -/
theorem c6_amended_no_search_stage (or : SpotifyOracle) (mood : String)
    (sh : List Track → List Track) :
    ((GetPersonalizedRecommendations or mood sh).2).all
        (fun c => !(isSearchTracksCall c)) = true
    ∧ (GetSearchBasedRecommendations or mood).2
        = [Call.searchTracksCall (searchQueryForMood mood) 20]
    ∧ (∀ ts, or.searchTracksResp (searchQueryForMood mood) = Except.ok ts →
        0 < ts.length →
        (GetSearchBasedRecommendations or mood).1 = Except.ok ts) := by
  refine ⟨?_, ?_, ?_⟩
  · exact pipeline_trace_all _ (fun _ _ => rfl) rfl rfl (fun _ => rfl) (fun _ => rfl)
      (fun _ => rfl) (fun _ _ => rfl) (fun _ => rfl) (fun _ _ => rfl) or mood sh
  · unfold GetSearchBasedRecommendations
    rcases h : or.searchTracksResp (searchQueryForMood mood) with e | ts
    · simp [h]
    · by_cases hz : ts.length = 0 <;> simp [h, hz]
  · intro ts hres hpos
    unfold GetSearchBasedRecommendations
    simp only [hres]
    simp [Nat.pos_iff_ne_zero.mp hpos]

/-- C6 witness for the amended statement: a concrete oracle whose track
search succeeds, run through GetSearchBasedRecommendations. -/
theorem c6_amended_no_search_stage_witness :
    orSearch.searchTracksResp (searchQueryForMood "energetic") = Except.ok [trackU1]
    ∧ (GetSearchBasedRecommendations orSearch "energetic").1 = Except.ok [trackU1] :=
  ⟨rfl,
   (c6_amended_no_search_stage orSearch "energetic" (fun l => l)).2.2 [trackU1]
     rfl (by decide)⟩

/-- C8: the three fallback stages are guarded by a pool of fewer than 50
tracks: the prelim itself makes no stage-2/3/4 call, and whenever the pool
already holds at least 50 tracks after a stage, the remaining stages
contribute nothing to the trace of the run. -/
theorem c8_escalating_fallback (or : SpotifyOracle) (mood : String)
    (sh : List Track → List Track) :
    (((pipelinePrelim or mood).2).all
        (fun c => !(isStage2Call c || isStage3Call c || isStage4Call c)) = true)
    ∧ (50 ≤ pool1Len or mood →
        (GetPersonalizedRecommendations or mood sh).2 = (pipelinePrelim or mood).2)
    ∧ (50 ≤ pool2Len or mood →
        (GetPersonalizedRecommendations or mood sh).2
          = (pipelinePrelim or mood).2 ++ stage2Trace or mood)
    ∧ (50 ≤ pool3Len or mood →
        (GetPersonalizedRecommendations or mood sh).2
          = (pipelinePrelim or mood).2 ++ stage2Trace or mood
            ++ stage3Trace or mood) := by
  refine ⟨?_, ?_, ?_, ?_⟩
  · exact prelim_trace_all _ (fun _ _ => rfl) rfl rfl (fun _ => rfl) (fun _ => rfl)
      or mood
  · intro h
    unfold pool1Len at h
    rcases hres : pipelinePrelim or mood with ⟨p1, p2⟩
    rw [hres] at h
    unfold GetPersonalizedRecommendations
    rw [hres]
    cases p1 with
    | error e => simp at h
    | ok p =>
      simp only at h
      have h2 : afterStage2 or mood p = (p.pool, []) := by
        unfold afterStage2
        rw [if_neg (by omega)]
      have h3 : afterStage3 or mood p p.pool = (p.pool, []) := by
        unfold afterStage3
        rw [if_neg (by omega)]
      have h4 : afterStage4 or mood p p.pool = (p.pool, []) := by
        unfold afterStage4
        rw [if_neg (by omega)]
      by_cases hf : (FilterTracksByLikedSongs p.pool.allTracks p.likedTracks).length = 0 <;>
        simp [h2, h3, h4, hf]
  · intro h
    unfold pool2Len at h
    rcases hres : pipelinePrelim or mood with ⟨p1, p2⟩
    rw [hres] at h
    unfold GetPersonalizedRecommendations stage2Trace
    rw [hres]
    cases p1 with
    | error e => simp at h
    | ok p =>
      simp only at h
      have h3 : afterStage3 or mood p (afterStage2 or mood p).1
          = ((afterStage2 or mood p).1, []) := by
        unfold afterStage3
        rw [if_neg (by omega)]
      have h4 : afterStage4 or mood p (afterStage2 or mood p).1
          = ((afterStage2 or mood p).1, []) := by
        unfold afterStage4
        rw [if_neg (by omega)]
      by_cases hf : (FilterTracksByLikedSongs
          ((afterStage2 or mood p).1).allTracks p.likedTracks).length = 0 <;>
        simp [h3, h4, hf]
  · intro h
    unfold pool3Len at h
    rcases hres : pipelinePrelim or mood with ⟨p1, p2⟩
    rw [hres] at h
    unfold GetPersonalizedRecommendations stage2Trace stage3Trace
    rw [hres]
    cases p1 with
    | error e => simp at h
    | ok p =>
      simp only at h
      have h4 : afterStage4 or mood p (afterStage3 or mood p (afterStage2 or mood p).1).1
          = ((afterStage3 or mood p (afterStage2 or mood p).1).1, []) := by
        unfold afterStage4
        rw [if_neg (by omega)]
      by_cases hf : (FilterTracksByLikedSongs
          ((afterStage3 or mood p (afterStage2 or mood p).1).1).allTracks
          p.likedTracks).length = 0 <;>
        simp [h4, hf, List.append_assoc]

set_option maxRecDepth 100000 in
/-- C8 witness: a user whose 50 liked tracks all pass the audio band, so
the pool is full after the prelim; all three guard hypotheses hold and
none of the later stages contributes a call. -/
theorem c8_escalating_fallback_witness :
    (50 ≤ pool1Len or8 "energetic"
      ∧ (GetPersonalizedRecommendations or8 "energetic" (fun l => l)).2
          = (pipelinePrelim or8 "energetic").2)
    ∧ ((GetPersonalizedRecommendations or8 "energetic" (fun l => l)).2
          = (pipelinePrelim or8 "energetic").2 ++ stage2Trace or8 "energetic")
    ∧ ((GetPersonalizedRecommendations or8 "energetic" (fun l => l)).2
          = (pipelinePrelim or8 "energetic").2 ++ stage2Trace or8 "energetic"
            ++ stage3Trace or8 "energetic") :=
  ⟨⟨by decide,
    (c8_escalating_fallback or8 "energetic" (fun l => l)).2.1 (by decide)⟩,
   (c8_escalating_fallback or8 "energetic" (fun l => l)).2.2.1 (by decide),
   (c8_escalating_fallback or8 "energetic" (fun l => l)).2.2.2 (by decide)⟩

/-! ### Congruence of the pipeline in the oracle (C10) -/

/-- GetUserLikedTracks depends only on the saved-tracks endpoint. -/
theorem GetUserLikedTracks_congr (or1 or2 : SpotifyOracle)
    (h : or1.savedPage = or2.savedPage) :
    GetUserLikedTracks or1 = GetUserLikedTracks or2 := by
  unfold GetUserLikedTracks
  rw [h]

/-- batchFetchTracks depends only on the GetTracks endpoint. -/
theorem batchFetchTracks_congr (or1 or2 : SpotifyOracle)
    (h : or1.getTracksResp = or2.getTracksResp) (ids : List String) :
    batchFetchTracks or1 ids = batchFetchTracks or2 ids := by
  unfold batchFetchTracks
  rw [h]

/-- AnalyzeAudioFeaturesForMood depends only on the audio-feature
endpoint. -/
theorem analyze_congr (or1 or2 : SpotifyOracle)
    (h : or1.audioFeaturesResp = or2.audioFeaturesResp)
    (ids : List String) (mood : String) :
    AnalyzeAudioFeaturesForMood or1 ids mood
      = AnalyzeAudioFeaturesForMood or2 ids mood := by
  unfold AnalyzeAudioFeaturesForMood
  rw [h]

/-- The prelim is unchanged when the oracles agree on the saved-tracks,
GetTracks and audio-feature endpoints, and the liked-artist, top-artist
and top-track sources are interchangeable after error discarding. -/
theorem prelim_congr (or1 or2 : SpotifyOracle) (mood : String)
    (hsp : or1.savedPage = or2.savedPage)
    (hla1 : orEmpty (GetUserLikedArtists or1).1 = orEmpty (GetUserLikedArtists or2).1)
    (hla2 : (GetUserLikedArtists or1).2 = (GetUserLikedArtists or2).2)
    (hta : orEmpty (GetUserTopArtists or1.topArtistsResp)
      = orEmpty (GetUserTopArtists or2.topArtistsResp))
    (htt : orEmpty (GetUserTopTracks or1.topTracksResp)
      = orEmpty (GetUserTopTracks or2.topTracksResp))
    (hgt : or1.getTracksResp = or2.getTracksResp)
    (hafr : or1.audioFeaturesResp = or2.audioFeaturesResp) :
    pipelinePrelim or1 mood = pipelinePrelim or2 mood := by
  unfold pipelinePrelim
  rw [GetUserLikedTracks_congr or1 or2 hsp]
  have hbf : ∀ ids, batchFetchTracks or1 ids = batchFetchTracks or2 ids :=
    fun ids => batchFetchTracks_congr or1 or2 hgt ids
  have haf : ∀ ids, AnalyzeAudioFeaturesForMood or1 ids mood
      = AnalyzeAudioFeaturesForMood or2 ids mood :=
    fun ids => analyze_congr or1 or2 hafr ids mood
  simp only [hla1, hla2, hta, htt, hbf, haf]

/-- The genre-cache artist loop depends only on the GetArtist endpoint. -/
theorem genreArtistLoop_congr (or1 or2 : SpotifyOracle)
    (h : or1.artistGenresResp = or2.artistGenresResp) (mg : List String) :
    ∀ (arts : List Artist) (cache : GenreCache) (tr : List Call),
      genreArtistLoop or1 mg arts cache tr = genreArtistLoop or2 mg arts cache tr := by
  intro arts
  induction arts with
  | nil => intro cache tr; rfl
  | cons a rest ih =>
    intro cache tr
    rw [genreArtistLoop, genreArtistLoop, h]
    cases lookupGenres cache a.id with
    | some gs =>
      by_cases hm : artistGenresMatch mg gs = true <;> simp [hm, ih]
    | none =>
      cases or2.artistGenresResp a.id with
      | error e => simp [ih]
      | ok gs =>
        by_cases hm : artistGenresMatch mg gs = true <;> simp [hm, ih]

/-- The genre track loop depends only on the GetArtist endpoint. -/
theorem genreTrackLoop_congr (or1 or2 : SpotifyOracle)
    (h : or1.artistGenresResp = or2.artistGenresResp) (mg : List String) :
    ∀ (ts : List Track) (st : PoolState) (cache : GenreCache) (tr : List Call),
      genreTrackLoop or1 mg ts st cache tr = genreTrackLoop or2 mg ts st cache tr := by
  intro ts
  induction ts with
  | nil => intro st cache tr; rfl
  | cons t rest ih =>
    intro st cache tr
    rw [genreTrackLoop, genreTrackLoop]
    by_cases hseen : st.seen.contains t.id = true
    · simp only [hseen, if_true]
      exact ih st cache tr
    · simp only [hseen, if_false]
      rw [genreArtistLoop_congr or1 or2 h mg t.artists cache tr]
      rcases hres : genreArtistLoop or2 mg t.artists cache tr with ⟨matched, cache2, tr2⟩
      simp only [hres]
      cases matched with
      | false => simpa using ih st cache2 tr2
      | true =>
        by_cases hc : 100 ≤ (addTrack st t).allTracks.length
        · simp [hc]
        · simp only [hc, if_false]
          simpa using ih (addTrack st t) cache2 tr2

/-- The playlist item loop depends only on the playlist-items endpoint. -/
theorem minePlaylistLoop_congr (or1 or2 : SpotifyOracle)
    (h : or1.playlistItemsResp = or2.playlistItemsResp) :
    ∀ (pls : List Playlist) (acc : List Track) (tr : List Call),
      minePlaylistLoop or1 pls acc tr = minePlaylistLoop or2 pls acc tr := by
  intro pls
  induction pls with
  | nil => intro acc tr; rfl
  | cons p rest ih =>
    intro acc tr
    rw [minePlaylistLoop, minePlaylistLoop, h]
    by_cases hc : 200 ≤ acc.length
    · simp [hc]
    · simp only [hc, if_false]
      cases or2.playlistItemsResp p.id with
      | error e => exact ih _ _
      | ok items => exact ih _ _

/-- The playlist query loop depends only on the playlist-search and
playlist-items endpoints. -/
theorem minePlaylistsQueries_congr (or1 or2 : SpotifyOracle)
    (hspl : or1.searchPlaylistsResp = or2.searchPlaylistsResp)
    (hpli : or1.playlistItemsResp = or2.playlistItemsResp) :
    ∀ (qs : List String) (acc : List Track) (tr : List Call),
      minePlaylistsQueries or1 qs acc tr = minePlaylistsQueries or2 qs acc tr := by
  intro qs
  induction qs with
  | nil => intro acc tr; rfl
  | cons q rest ih =>
    intro acc tr
    rw [minePlaylistsQueries, minePlaylistsQueries, hspl]
    by_cases hc : 200 ≤ acc.length
    · simp [hc]
    · simp only [hc, if_false]
      cases or2.searchPlaylistsResp q with
      | error e => exact ih _ _
      | ok pls =>
        have hm := minePlaylistLoop_congr or1 or2 hpli
        simp only [hm]
        exact ih _ _

/-- Stage 5 depends only on the recommendations and GetTracks endpoints. -/
theorem stage4_congr (or1 or2 : SpotifyOracle)
    (hgt : or1.getTracksResp = or2.getTracksResp)
    (hrec : or1.recommendationsResp = or2.recommendationsResp)
    (mood : String) (tA : List Artist) (tT : List Track)
    (lA lT : List String) (st : PoolState) :
    stage4Recommendations or1 mood tA tT lA lT st
      = stage4Recommendations or2 mood tA tT lA lT st := by
  unfold stage4Recommendations
  rw [hrec]
  have hbf : ∀ ids, batchFetchTracks or1 ids = batchFetchTracks or2 ids :=
    fun ids => batchFetchTracks_congr or1 or2 hgt ids
  simp only [hbf]

/-- The guarded genre stage respects oracle congruence. -/
theorem afterStage2_congr (or1 or2 : SpotifyOracle)
    (h : or1.artistGenresResp = or2.artistGenresResp)
    (mood : String) (p : PrelimResult) :
    afterStage2 or1 mood p = afterStage2 or2 mood p := by
  unfold afterStage2 stage2Run
  have hg := genreTrackLoop_congr or1 or2 h ((GetMoodMatchingGenres mood).map String.toLower)
  simp only [hg]

/-- The guarded mining stage respects oracle congruence. -/
theorem afterStage3_congr (or1 or2 : SpotifyOracle)
    (hspl : or1.searchPlaylistsResp = or2.searchPlaylistsResp)
    (hpli : or1.playlistItemsResp = or2.playlistItemsResp)
    (mood : String) (p : PrelimResult) (st : PoolState) :
    afterStage3 or1 mood p st = afterStage3 or2 mood p st := by
  unfold afterStage3 stage3Run
  have hq := minePlaylistsQueries_congr or1 or2 hspl hpli
  simp only [hq]

/-- The guarded recommendation stage respects oracle congruence. -/
theorem afterStage4_congr (or1 or2 : SpotifyOracle)
    (hgt : or1.getTracksResp = or2.getTracksResp)
    (hrec : or1.recommendationsResp = or2.recommendationsResp)
    (mood : String) (p : PrelimResult) (st : PoolState) :
    afterStage4 or1 mood p st = afterStage4 or2 mood p st := by
  unfold afterStage4
  have hs := stage4_congr or1 or2 hgt hrec mood
  simp only [hs]

/-- Full-pipeline congruence: two oracles that agree on every consumed
endpoint — with the liked-artist, top-artist and top-track sources only
compared after error discarding — yield identical runs. -/
theorem pipeline_congr (or1 or2 : SpotifyOracle) (mood : String)
    (sh : List Track → List Track)
    (hsp : or1.savedPage = or2.savedPage)
    (hla1 : orEmpty (GetUserLikedArtists or1).1 = orEmpty (GetUserLikedArtists or2).1)
    (hla2 : (GetUserLikedArtists or1).2 = (GetUserLikedArtists or2).2)
    (hta : orEmpty (GetUserTopArtists or1.topArtistsResp)
      = orEmpty (GetUserTopArtists or2.topArtistsResp))
    (htt : orEmpty (GetUserTopTracks or1.topTracksResp)
      = orEmpty (GetUserTopTracks or2.topTracksResp))
    (hgt : or1.getTracksResp = or2.getTracksResp)
    (hafr : or1.audioFeaturesResp = or2.audioFeaturesResp)
    (hag : or1.artistGenresResp = or2.artistGenresResp)
    (hspl : or1.searchPlaylistsResp = or2.searchPlaylistsResp)
    (hpli : or1.playlistItemsResp = or2.playlistItemsResp)
    (hrec : or1.recommendationsResp = or2.recommendationsResp) :
    GetPersonalizedRecommendations or1 mood sh
      = GetPersonalizedRecommendations or2 mood sh := by
  unfold GetPersonalizedRecommendations
  rw [prelim_congr or1 or2 mood hsp hla1 hla2 hta htt hgt hafr]
  simp only [afterStage2_congr or1 or2 hag mood,
    afterStage3_congr or1 or2 hspl hpli mood,
    afterStage4_congr or1 or2 hgt hrec mood]

/-- C10: a failing GetUserLikedArtists, GetUserTopArtists or
GetUserTopTracks is indistinguishable from an empty one — the run proceeds
with empty seed inputs — whereas a failing saved-tracks endpoint aborts
GetPersonalizedRecommendations right after the first page request, before
any stage executes. -/
theorem c10_seed_errors_discarded (or : SpotifyOracle) (mood : String)
    (sh : List Track → List Track) (e : String) :
    GetPersonalizedRecommendations { or with topArtistsResp := .error e } mood sh
      = GetPersonalizedRecommendations { or with topArtistsResp := .ok [] } mood sh
    ∧ GetPersonalizedRecommendations { or with topTracksResp := .error e } mood sh
      = GetPersonalizedRecommendations { or with topTracksResp := .ok [] } mood sh
    ∧ GetPersonalizedRecommendations
        { or with savedPageArtists := fun _l _o => .error e } mood sh
      = GetPersonalizedRecommendations
        { or with savedPageArtists := fun _l _o => .ok [] } mood sh
    ∧ GetPersonalizedRecommendations
        { or with savedPage := fun _l _o => .error e } mood sh
      = (Except.error ("failed to get liked songs: "
            ++ ("failed to get user's liked songs: " ++ e)),
         [Call.savedTracksPage 50 0]) := by
  refine ⟨?_, ?_, ?_, ?_⟩
  · exact pipeline_congr _ _ mood sh rfl rfl rfl rfl rfl rfl rfl rfl rfl rfl rfl
  · exact pipeline_congr _ _ mood sh rfl rfl rfl rfl rfl rfl rfl rfl rfl rfl rfl
  · exact pipeline_congr _ _ mood sh rfl rfl rfl rfl rfl rfl rfl rfl rfl rfl rfl
  · rfl

end Vibecast
